import Mathlib

/-!
Shallow embedding of the agent turn orchestrator of the Cognition backend
(`backend/app`): token budget estimation, conversation compaction, task state
persistence, ranked retrieval with a document budget, the context manifest
builder, the tool permission gate, the tool executor, and the turn entry
point with its task registry and cooperative cancellation.

Python dictionaries are modelled as insertion-ordered association lists,
Python sets as duplicate-free lists, the database as explicit record lists
threaded through the functions, and `uuid4` / `datetime.utcnow` as a counter
carried in the state.  Floating point scores are modelled as rationals.
External collaborators (the language-model client, the vector index, the
viewport store, `json.loads`) are oracle fields of an environment record.
-/

namespace Cognition

/-! ## Association-list and set helpers (Python dict / set) -/

/-- Lookup in an insertion-ordered association list (`dict.get`). -/
def alistGet {α : Type} (m : List (String × α)) (k : String) : Option α :=
  (m.find? (fun p => p.1 == k)).map (·.2)

/-- `dict[k] = v`: overwrite in place, else append. -/
def alistSet {α : Type} (m : List (String × α)) (k : String) (v : α) : List (String × α) :=
  if m.any (fun p => p.1 == k) then m.map (fun p => if p.1 == k then (k, v) else p)
  else m ++ [(k, v)]

/-- `dict.pop(k, None)`. -/
def alistPop {α : Type} (m : List (String × α)) (k : String) : List (String × α) :=
  m.filter (fun p => p.1 != k)

/-- `set.discard(x)` on a set modelled as a list. -/
def listDiscard (l : List String) (x : String) : List String :=
  l.filter (fun y => y != x)

/-! ## Token budget service (`services/token_budget_service.py`) -/

/-- Cheap model-agnostic token estimate: `0` for empty text, else
`max 1 (len(text) // 4)`. -/
def estimate_tokens (text : String) : Nat :=
  if text.length = 0 then 0 else max 1 (text.length / 4)

/-- A chat message dict with keys `role`, `content` and (for tool messages)
`name`. -/
structure Msg where
  role : String
  content : String
  mname : Option String
deriving DecidableEq, Repr

/-- Sum of role and content estimates over a message list. -/
def estimate_messages_tokens (messages : List Msg) : Nat :=
  messages.foldl (fun total msg =>
    total + estimate_tokens msg.role + estimate_tokens msg.content) 0

/-- Truncate text to `limit` characters, replacing the tail by an ellipsis. -/
def short_text (text : String) (limit : Nat) : String :=
  if text.length ≤ limit then text else text.take (limit - 3) ++ "..."

/-! ## Settings (`config.py` defaults) -/

structure Settings where
  AUTO_COMPACT_ENABLED : Bool
  TASK_STATE_MACHINE_ENABLED : Bool
  COMPACT_TRIGGER_TOKENS : Nat
  COMPACT_FORCE_TOKENS : Nat
  COMPACT_TARGET_TOKENS : Nat
  DOC_CONTEXT_BUDGET_TOKENS : Nat
  VIEWPORT_EXCERPT_MAX_CHARS : Nat
deriving Repr

/-- The default configuration values of `config.py`. -/
def settings : Settings :=
  { AUTO_COMPACT_ENABLED := true
    TASK_STATE_MACHINE_ENABLED := true
    COMPACT_TRIGGER_TOKENS := 80000
    COMPACT_FORCE_TOKENS := 110000
    COMPACT_TARGET_TOKENS := 55000
    DOC_CONTEXT_BUDGET_TOKENS := 18000
    VIEWPORT_EXCERPT_MAX_CHARS := 2400 }

/-! ## Persisted records (`models.py`, JSON side columns omitted) -/

/-- A `ChatMessage` row; `timestamp` is a logical clock value. -/
structure ChatMessageRec where
  id : String
  session_id : String
  role : String
  content : String
  timestamp : Nat
deriving DecidableEq, Repr

/-- A `ConversationCompaction` row. -/
structure CompactionRec where
  id : String
  session_id : String
  sequence : Nat
  trigger_reason : String
  before_tokens : Nat
  after_tokens : Nat
  summary_text : String
  key_facts_message_count : Nat
  open_loops : List String
  source_from_ts : Option Nat
  source_to_ts : Option Nat
deriving DecidableEq, Repr

/-- A `SessionTaskState` row (one per session).  Steps are Python ints. -/
structure TaskStateRow where
  session_id : String
  task_id : String
  state : String
  goal : String
  plan_json : List (String × String)
  current_step : Int
  total_steps : Int
  artifacts_json : List (String × String)
  blocked_reason : Option String
  last_message_id : Option String
  updated_at : Nat
deriving DecidableEq, Repr

/-- A `Session` row: id, name, and the per-file permission map. -/
structure SessionRec where
  id : String
  sname : String
  permissions : List (String × String)
deriving DecidableEq, Repr

/-- A `File` row (`file_type` as its string enum value). -/
structure FileRec where
  id : String
  fname : String
  ftype : String
deriving DecidableEq, Repr

/-- The record store visible to the orchestrator. -/
structure Db where
  sessions : List SessionRec
  files : List FileRec
  chat_messages : List ChatMessageRec
  compactions : List CompactionRec
  task_states : List TaskStateRow
deriving DecidableEq, Repr

/-! ## Compaction engine (`services/compaction_service.py`) -/

/-- `SELECT sequence ... ORDER BY sequence DESC LIMIT 1` with the `or 0`
fallback: the maximum stored sequence for the session, `0` when absent. -/
def session_max_sequence (db : Db) (session_id : String) : Nat :=
  (((db.compactions.filter (fun c => c.session_id == session_id)).map (·.sequence)).foldl
    max 0)

/-- The compaction record with the highest sequence for the session
(`ORDER BY sequence DESC LIMIT 1`). -/
def latest_compaction (db : Db) (session_id : String) : Option CompactionRec :=
  (db.compactions.filter (fun c => c.session_id == session_id)).foldl
    (fun acc r =>
      match acc with
      | Option.none => Option.some r
      | Option.some b => if b.sequence < r.sequence then Option.some r else acc)
    Option.none

/-- The `user`/`assistant` rows of a history slice. -/
def conversational_messages (history_messages : List ChatMessageRec) : List ChatMessageRec :=
  history_messages.filter (fun msg => msg.role == "user" || msg.role == "assistant")

/-- `str.lower()` on ASCII mode strings. -/
def py_lower (s : String) : String := String.mk (s.data.map Char.toLower)

/-- One rebuild of the aggressive pass: system messages plus the tail, with
its estimate. -/
def shrink_tail_step (system_messages : List Msg) (recent_tail : List ChatMessageRec) :
    List Msg × Nat :=
  let compacted := system_messages ++
    recent_tail.map (fun m => Msg.mk m.role m.content Option.none)
  (compacted, estimate_messages_tokens compacted)

/-- The aggressive `while` loop, driven by a fuel that the loop guard never
exhausts (each pass requires more than two tail messages and removes one). -/
def shrink_tail_loop (system_messages : List Msg) (target_tokens : Nat) :
    Nat → List ChatMessageRec → List Msg × Nat
  | 0, recent_tail => shrink_tail_step system_messages recent_tail
  | fuel + 1, recent_tail =>
    let step := shrink_tail_step system_messages recent_tail
    if target_tokens < step.2 ∧ 2 < recent_tail.length then
      shrink_tail_loop system_messages target_tokens fuel (recent_tail.drop 1)
    else step

/-- The aggressive second pass: rebuild from the system messages plus the
recent tail, dropping from the oldest end while the estimate exceeds the
target and more than two tail messages remain. -/
def shrink_tail (system_messages : List Msg) (recent_tail : List ChatMessageRec)
    (target_tokens : Nat) : List Msg × Nat :=
  shrink_tail_loop system_messages target_tokens recent_tail.length recent_tail

/-- Result meta dict of a compaction decision. -/
structure CompactMeta where
  triggered : Bool
  reason : Option String
  before_tokens : Option Nat
  after_tokens : Option Nat
  compaction_id : Option String
deriving DecidableEq, Repr

/-- Return value of `maybe_compact_history`. -/
structure CompactResult where
  messages : List Msg
  compact_meta : CompactMeta
  latest_summary : Option String
deriving DecidableEq, Repr

/-- `maybe_compact_history`: decide whether to compact, build the summary
block, optionally run the aggressive pass, and persist one
`ConversationCompaction` row when triggered.  `compaction_id` stands for the
generated `uuid4`. -/
def maybe_compact_history (db : Db) (session_id : String)
    (history_messages : List ChatMessageRec) (pre_compact_messages : List Msg)
    (compact_mode : String) (compaction_id : String) : Db × CompactResult :=
  let latest_summary := (latest_compaction db session_id).map (·.summary_text)
  let normalized_mode := py_lower (if compact_mode = "" then "auto" else compact_mode)
  let force_mode := normalized_mode = "force"
  if normalized_mode = "off" ∨ ¬ settings.AUTO_COMPACT_ENABLED then
    (db, ⟨pre_compact_messages,
          ⟨false, Option.none, Option.none, Option.none, Option.none⟩, latest_summary⟩)
  else
    let before_tokens := estimate_messages_tokens pre_compact_messages
    if before_tokens < settings.COMPACT_TRIGGER_TOKENS ∧ ¬ force_mode then
      (db, ⟨pre_compact_messages,
            ⟨false, Option.none, Option.some before_tokens, Option.none, Option.none⟩,
            latest_summary⟩)
    else
      let conversational := conversational_messages history_messages
      if conversational.length ≤ 6 then
        (db, ⟨pre_compact_messages,
              ⟨false, Option.none, Option.some before_tokens, Option.none, Option.none⟩,
              latest_summary⟩)
      else
        let older := conversational.take (conversational.length - 6)
        let recent := conversational.drop (conversational.length - 6)
        let summary_lines := (older.drop (older.length - 30)).map (fun msg =>
          (if msg.role = "user" then "USER" else "ASSISTANT") ++ ": " ++
            short_text msg.content 300)
        let summary_text :=
          if summary_lines.isEmpty then "Compacted conversation history: (empty)"
          else "Compacted conversation history:\n" ++ String.intercalate "\n" summary_lines
        let user_messages := (older.filter (fun m => m.role == "user")).map (·.content)
        let open_loops :=
          if user_messages.isEmpty then []
          else (user_messages.drop (user_messages.length - 5)).map
            (fun content => short_text content 180)
        let last_seq := session_max_sequence db session_id
        let leading_system := pre_compact_messages.takeWhile (fun m => m.role == "system")
        let compaction_block :=
          "[Compaction Block #" ++ toString (last_seq + 1) ++ "]\n" ++ summary_text ++
          (if open_loops.isEmpty then ""
           else "\n\nOpen loops:\n- " ++ String.intercalate "\n- " open_loops)
        let compacted_messages :=
          leading_system ++ [Msg.mk "system" compaction_block Option.none] ++
            recent.map (fun m => Msg.mk m.role m.content Option.none)
        let after_tokens0 := estimate_messages_tokens compacted_messages
        let reason :=
          if settings.COMPACT_FORCE_TOKENS ≤ before_tokens then "force_threshold"
          else if force_mode then "force_mode" else "trigger_threshold"
        let shrunk :=
          if force_mode ∨ settings.COMPACT_FORCE_TOKENS ≤ before_tokens ∨
              settings.COMPACT_TARGET_TOKENS < after_tokens0 then
            let target_tokens := max 1 settings.COMPACT_TARGET_TOKENS
            let system_messages := compacted_messages.filter (fun m => m.role == "system")
            let recent_tail :=
              if 4 < recent.length then recent.drop (recent.length - 4) else recent
            shrink_tail system_messages recent_tail target_tokens
          else
            (compacted_messages, after_tokens0)
        let record : CompactionRec :=
          { id := compaction_id
            session_id := session_id
            sequence := last_seq + 1
            trigger_reason := reason
            before_tokens := before_tokens
            after_tokens := shrunk.2
            summary_text := summary_text
            key_facts_message_count := older.length
            open_loops := open_loops
            source_from_ts := (older.head?).map (·.timestamp)
            source_to_ts := (older.getLast?).map (·.timestamp) }
        ({ db with compactions := db.compactions ++ [record] },
         ⟨shrunk.1,
          ⟨true, Option.some reason, Option.some before_tokens, Option.some shrunk.2,
           Option.some compaction_id⟩,
          Option.some summary_text⟩)

/-! ## Task state machine (`services/task_state_service.py`) -/

/-- Snapshot dict returned by the task-state service. -/
structure TaskSnapshot where
  task_id : String
  state : String
  current_step : Int
  total_steps : Int
  next_action : Option String
deriving DecidableEq, Repr

/-- `default_task_state_snapshot`. -/
def default_task_state_snapshot (task_id : String) : TaskSnapshot :=
  ⟨task_id, "planning", 0, 0, Option.none⟩

/-- `next_action if next_action is not None else ("retry" if state == "blocked"
else None)`. -/
def resolve_next_action (next_action : Option String) (state : String) : Option String :=
  match next_action with
  | Option.some v => Option.some v
  | Option.none => if state = "blocked" then Option.some "retry" else Option.none

/-- `upsert_task_state`: one row per session, created or overwritten with the
caller-supplied values; `now` stands for `datetime.utcnow()`. -/
def upsert_task_state (db : Db) (session_id task_id state goal : String)
    (current_step total_steps : Int) (next_action blocked_reason last_message_id : Option String)
    (plan_json artifacts_json : List (String × String)) (now : Nat) : Db × TaskSnapshot :=
  if ¬ settings.TASK_STATE_MACHINE_ENABLED then
    (db, ⟨task_id, state, current_step, total_steps, resolve_next_action next_action state⟩)
  else
    match db.task_states.find? (fun row => row.session_id == session_id) with
    | Option.none =>
      let row : TaskStateRow :=
        { session_id := session_id
          task_id := task_id
          state := state
          goal := goal
          plan_json := plan_json
          current_step := current_step
          total_steps := total_steps
          artifacts_json := artifacts_json
          blocked_reason := blocked_reason
          last_message_id := last_message_id
          updated_at := now }
      ({ db with task_states := db.task_states ++ [row] },
       ⟨row.task_id, row.state, row.current_step, row.total_steps,
        resolve_next_action next_action row.state⟩)
    | Option.some old =>
      let row : TaskStateRow :=
        { session_id := old.session_id
          task_id := task_id
          state := state
          goal := goal
          plan_json := if plan_json.isEmpty then old.plan_json else plan_json
          current_step := current_step
          total_steps := total_steps
          artifacts_json := if artifacts_json.isEmpty then old.artifacts_json else artifacts_json
          blocked_reason := blocked_reason
          last_message_id := last_message_id
          updated_at := now }
      ({ db with task_states := db.task_states.map (fun r =>
            if r.session_id == session_id then row else r) },
       ⟨row.task_id, row.state, row.current_step, row.total_steps,
        resolve_next_action next_action row.state⟩)

/-! ## Permission gate (`services/tools/middleware.py`) -/

/-- Per-file permission levels (string enum `read` / `write` / `none`). -/
inductive PermissionLevel
  | READ
  | WRITE
  | NONE
deriving DecidableEq, Repr

/-- `PermissionLevel(value)`, `ValueError` as `Option.none`. -/
def PermissionLevel.ofString (s : String) : Option PermissionLevel :=
  if s = "read" then Option.some PermissionLevel.READ
  else if s = "write" then Option.some PermissionLevel.WRITE
  else if s = "none" then Option.some PermissionLevel.NONE
  else Option.none

/-- File types that support write operations. -/
def WRITABLE_TYPES : List String := ["md", "txt"]

/-- Context passed to tool handlers: session and its permission map. -/
structure ToolContext where
  session_id : String
  permissions : List (String × PermissionLevel)

/-- JSON-ish argument values of a tool call. -/
inductive ArgVal
  | s (v : String)
  | i (v : Int)
  | b (v : Bool)
  | arr (vs : List ArgVal)
  | null
deriving Repr

/-- Tool arguments: a dict of argument values. -/
def ToolArgs : Type := List (String × ArgVal)

/-- `ToolResult` with an opaque string-valued data payload. -/
structure ToolResult where
  success : Bool
  data : Option (List (String × String))
  error : Option String
  error_code : Option String
deriving DecidableEq, Repr

/-- `ToolPermissionError` carrier. -/
structure ToolPermissionError where
  tool_name : String
  file_id : String
  required : PermissionLevel
deriving DecidableEq, Repr

/-- `ToolValidationError` carrier. -/
structure ToolValidationError where
  tool_name : String
  field : String
  message : String
deriving DecidableEq, Repr

/-- Execution outcome of a tool body: a result, or a raised exception. -/
inductive ToolRunOutcome
  | ok (result : ToolResult)
  | raised (message : String)

/-- A registered tool: name, permission requirements, schema, and behavior
(`run` models `tool.execute`). -/
structure ToolSpec where
  tname : String
  required_permission : Option PermissionLevel
  writable_only : Bool
  required_fields : List String
  field_types : List (String × String)
  run : ToolArgs → ToolRunOutcome

/-- Extract the target file id from `file_id`, or from a single-element
`file_ids` array; Python falsy values count as absent. -/
def extract_file_id (arguments : ToolArgs) : Option String :=
  let from_array :=
    match alistGet arguments "file_ids" with
    | Option.some (ArgVal.arr [ArgVal.s v]) => if v.isEmpty then Option.none else Option.some v
    | _ => Option.none
  match alistGet arguments "file_id" with
  | Option.some (ArgVal.s v) => if v.isEmpty then from_array else Option.some v
  | _ => from_array

/-- `PermissionMiddleware.check_permission`: `Option.some` is a raised
`ToolPermissionError`. -/
def check_permission (tool : ToolSpec) (arguments : ToolArgs) (context : ToolContext)
    (files : List FileRec) : Option ToolPermissionError :=
  match extract_file_id arguments with
  | Option.none => Option.none
  | Option.some file_id =>
    let permission := (alistGet context.permissions file_id).getD PermissionLevel.READ
    if permission = PermissionLevel.NONE then
      Option.some ⟨tool.tname, file_id,
        tool.required_permission.getD PermissionLevel.READ⟩
    else if tool.required_permission = Option.some PermissionLevel.READ then
      if permission ≠ PermissionLevel.READ ∧ permission ≠ PermissionLevel.WRITE then
        Option.some ⟨tool.tname, file_id, PermissionLevel.READ⟩
      else Option.none
    else if tool.required_permission = Option.some PermissionLevel.WRITE then
      if permission ≠ PermissionLevel.WRITE then
        Option.some ⟨tool.tname, file_id, PermissionLevel.WRITE⟩
      else if tool.writable_only then
        match files.find? (fun f => f.id == file_id) with
        | Option.some f =>
          if ¬ (f.ftype ∈ WRITABLE_TYPES) then
            Option.some ⟨tool.tname, file_id, PermissionLevel.WRITE⟩
          else Option.none
        | Option.none => Option.none
      else Option.none
    else Option.none

/-- `filter_visible_files`: drop files whose resolved level is `none`;
absence defaults to `read`. -/
def filter_visible_files (file_ids : List String) (context : ToolContext) : List String :=
  file_ids.filter (fun file_id =>
    (alistGet context.permissions file_id).getD PermissionLevel.READ ≠ PermissionLevel.NONE)

/-- `filter_readable_files`: keep files whose resolved level is `read` or
`write`; absence defaults to `read`. -/
def filter_readable_files (file_ids : List String) (context : ToolContext) : List String :=
  file_ids.filter (fun file_id =>
    (alistGet context.permissions file_id).getD PermissionLevel.READ = PermissionLevel.READ ∨
    (alistGet context.permissions file_id).getD PermissionLevel.READ = PermissionLevel.WRITE)

/-- `filter_writable_files`: keep files whose level is exactly `write`;
absence defaults to `none`. -/
def filter_writable_files (file_ids : List String) (context : ToolContext) : List String :=
  file_ids.filter (fun file_id =>
    (alistGet context.permissions file_id).getD PermissionLevel.NONE = PermissionLevel.WRITE)

/-! ## Tool executor (`services/tools/executor.py`, `base.py`) -/

/-- Python type name of an argument value (for validation messages). -/
def ArgVal.pyType : ArgVal → String
  | ArgVal.s _ => "str"
  | ArgVal.i _ => "int"
  | ArgVal.b _ => "bool"
  | ArgVal.arr _ => "list"
  | ArgVal.null => "NoneType"

/-- Does a value satisfy a JSON-schema basic type?  `isinstance(value, int)`
is true for booleans in Python, mirrored here. -/
def schema_type_matches (prop_type : String) (value : ArgVal) : Bool :=
  if prop_type = "string" then (match value with | ArgVal.s _ => true | _ => false)
  else if prop_type = "integer" then
    (match value with | ArgVal.i _ => true | ArgVal.b _ => true | _ => false)
  else if prop_type = "array" then (match value with | ArgVal.arr _ => true | _ => false)
  else if prop_type = "boolean" then (match value with | ArgVal.b _ => true | _ => false)
  else true

/-- `BaseTool.validate_arguments`: first missing required field, else first
supplied field whose schema type does not match. -/
def validate_arguments (tool : ToolSpec) (arguments : ToolArgs) : Option ToolValidationError :=
  match tool.required_fields.find? (fun field => ¬ arguments.any (fun p => p.1 == field)) with
  | Option.some field =>
    Option.some ⟨tool.tname, field, "Required field " ++ field ++ " is missing"⟩
  | Option.none =>
    (arguments.find? (fun p =>
      match alistGet tool.field_types p.1 with
      | Option.some prop_type => ¬ schema_type_matches prop_type p.2
      | Option.none => false)).map (fun p =>
        ⟨tool.tname, p.1, "Expected type mismatch, got " ++ p.2.pyType⟩)

/-- A `ToolResult` failure with the given error text and code. -/
def tool_failure (error : String) (error_code : String) : ToolResult :=
  ⟨false, Option.none, Option.some error, Option.some error_code⟩

/-- `ToolExecutor.execute`: registry lookup, validation, permission check,
then execution with the exception boundary. -/
def ToolExecutor_execute (registry : List ToolSpec) (files : List FileRec)
    (tool_name : Option String) (arguments : ToolArgs) (context : ToolContext)
    (validate_permissions : Bool) : ToolResult :=
  match registry.find? (fun t => Option.some t.tname == tool_name) with
  | Option.none =>
    tool_failure ("Unknown tool: " ++ tool_name.getD "None") "TOOL_NOT_FOUND"
  | Option.some tool =>
    match validate_arguments tool arguments with
    | Option.some e =>
      tool_failure ("Validation error in " ++ e.tool_name ++ "." ++ e.field ++ ": " ++ e.message)
        "VALIDATION_ERROR"
    | Option.none =>
      let permission_error :=
        if validate_permissions then check_permission tool arguments context files
        else Option.none
      match permission_error with
      | Option.some e =>
        tool_failure ("Tool " ++ e.tool_name ++ " requires permission on file " ++ e.file_id)
          "PERMISSION_DENIED"
      | Option.none =>
        match tool.run arguments with
        | ToolRunOutcome.ok result => result
        | ToolRunOutcome.raised msg =>
          tool_failure ("Tool execution failed: " ++ msg) "EXECUTION_ERROR"

/-- One entry of a batch: `{"name": ..., "arguments": ...}`. -/
structure BatchCall where
  bname : Option String
  arguments : ToolArgs

/-- `ToolExecutor.execute_batch`: one result per call, in order; a missing
name yields an `INVALID_CALL` failure and the batch continues. -/
def ToolExecutor_execute_batch (registry : List ToolSpec) (files : List FileRec)
    (tool_calls : List BatchCall) (context : ToolContext) : List ToolResult :=
  tool_calls.map (fun call =>
    let name_missing := match call.bname with
      | Option.none => true
      | Option.some n => n.isEmpty
    if name_missing then
      tool_failure "Tool call missing name field" "INVALID_CALL"
    else
      ToolExecutor_execute registry files call.bname call.arguments context true)

/-! ## Retrieval ranker (`services/retrieval_service.py`)

Candidates arrive from the semantic vector search or from the lexical
fallback; both paths feed the same dedup / rank / budget walk, which is what
is embedded here.  IEEE doubles are modelled as rationals. -/

/-- A retrieval candidate dict. -/
structure Candidate where
  file_id : String
  page : Option Int
  chunk_index : Option Int
  content : String
  score : ℚ
deriving DecidableEq, Repr

/-- Python `f"{value}"` for an optional int (`None` renders as `"None"`). -/
def pyShowOptInt (o : Option Int) : String :=
  match o with
  | Option.none => "None"
  | Option.some n => toString n

/-- The dedup key `f"{file_id}:{page}:{chunk_index}"`. -/
def candidate_key (c : Candidate) : String :=
  c.file_id ++ ":" ++ pyShowOptInt c.page ++ ":" ++ pyShowOptInt c.chunk_index

/-- Insertion-ordered dedup keeping the strictly higher score per key
(Python dict update preserves first-insertion position). -/
def dedup_fold (acc : List (String × Candidate)) : List Candidate → List (String × Candidate)
  | [] => acc
  | item :: rest =>
    let key := candidate_key item
    match alistGet acc key with
    | Option.none => dedup_fold (acc ++ [(key, item)]) rest
    | Option.some prev =>
      if prev.score < item.score then dedup_fold (alistSet acc key item) rest
      else dedup_fold acc rest

/-- `uniq.values()` after the dedup pass. -/
def dedup_candidates (candidates : List Candidate) : List Candidate :=
  (dedup_fold [] candidates).map (·.2)

/-- Descending-score comparator (stable sort, like Python `sorted` with
`reverse=True`). -/
def score_ge (a b : Candidate) : Bool := decide (b.score ≤ a.score)

/-- Deduplicated candidates sorted by score descending. -/
def ranked_candidates (candidates : List Candidate) : List Candidate :=
  (dedup_candidates candidates).mergeSort score_ge

/-- A citation dict (content truncated to 200 chars). -/
structure Citation where
  file_id : String
  page : Option Int
  chunk_index : Option Int
  content : String
deriving DecidableEq, Repr

/-- A retrieval ref dict (file id, name, page, 4-decimal score). -/
structure RetrievalRef where
  file_id : String
  file_name : String
  page : Option Int
  score : ℚ
deriving DecidableEq, Repr

/-- Name/type info of a permitted file. -/
structure FileInfo where
  finame : String
  fitype : String
deriving DecidableEq, Repr

/-- `round(x, 4)` modelled as decimal rounding on rationals. -/
def round4 (x : ℚ) : ℚ := (round (x * 10000) : ℤ) / 10000

/-- The formatted context block of an accepted candidate. -/
def format_context_part (item : Candidate) : String :=
  "[Document: " ++ item.file_id ++ ", Page " ++ pyShowOptInt item.page ++ "]:\n" ++ item.content

/-- The citation of an accepted candidate. -/
def make_citation (item : Candidate) : Citation :=
  ⟨item.file_id, item.page, item.chunk_index, short_text item.content 200⟩

/-- The ref of an accepted candidate
(`permitted_files_info.get(file_id, {}).get("name", "Unknown")`). -/
def make_ref (permitted_files_info : List (String × FileInfo)) (item : Candidate) :
    RetrievalRef :=
  ⟨item.file_id, ((alistGet permitted_files_info item.file_id).map (·.finame)).getD "Unknown",
   item.page, round4 item.score⟩

/-- The greedy budget walk over the ranked candidates: a candidate whose
estimate would push the running total over the budget is skipped whole and
the walk continues. -/
def accept_walk (permitted_files_info : List (String × FileInfo)) :
    List Candidate → Nat → List String × List Citation × List RetrievalRef × Nat
  | [], used_tokens => ([], [], [], used_tokens)
  | item :: rest, used_tokens =>
    let block_tokens := estimate_tokens item.content
    if settings.DOC_CONTEXT_BUDGET_TOKENS < used_tokens + block_tokens then
      accept_walk permitted_files_info rest used_tokens
    else
      let tail := accept_walk permitted_files_info rest (used_tokens + block_tokens)
      (format_context_part item :: tail.1, make_citation item :: tail.2.1,
       make_ref permitted_files_info item :: tail.2.2.1, tail.2.2.2)

/-- Ghost companion of `accept_walk`: the accepted candidates themselves. -/
def accepted_candidates : List Candidate → Nat → List Candidate
  | [], _ => []
  | item :: rest, used_tokens =>
    let block_tokens := estimate_tokens item.content
    if settings.DOC_CONTEXT_BUDGET_TOKENS < used_tokens + block_tokens then
      accepted_candidates rest used_tokens
    else
      item :: accepted_candidates rest (used_tokens + block_tokens)

/-- Return value of `retrieve_context_blocks`. -/
structure RetrievalOut where
  context_parts : List String
  citations : List Citation
  retrieval_refs : List RetrievalRef
  semantic_failed : Bool
  used_tokens : Nat
deriving DecidableEq, Repr

/-- `retrieve_context_blocks` over an already-gathered candidate list:
empty readable set short-circuits; otherwise dedup, sort by score
descending, and run the budget walk. -/
def retrieve_context_blocks (readable_files : List String) (candidates : List Candidate)
    (permitted_files_info : List (String × FileInfo)) (semantic_failed : Bool) :
    RetrievalOut :=
  if readable_files.isEmpty then ⟨[], [], [], false, 0⟩
  else
    let ranked := ranked_candidates candidates
    let walked := accept_walk permitted_files_info ranked 0
    ⟨walked.1, walked.2.1, walked.2.2.1, semantic_failed, walked.2.2.2⟩

/-! ## Context manifest builder (`services/context_manifest_service.py`) -/

/-- One entry of the manifest's permitted-file lists. -/
structure ManifestFileEntry where
  file_id : String
  mfname : String
  mftype : String
  permission : String
deriving DecidableEq, Repr

/-- The active viewport snapshot. -/
structure ViewportInfo where
  file_id : String
  file_name : String
  file_type : String
  page : Int
  visible_range : Option (Int × Int)
deriving DecidableEq, Repr

/-- The structured context manifest. -/
structure ContextManifest where
  session_id : String
  task_id : String
  read_files : List ManifestFileEntry
  write_files : List ManifestFileEntry
  permitted_total : Nat
  active_viewport : Option ViewportInfo
  active_page_excerpt : Option String
  retrieved_context_refs : List RetrievalRef
  latest_compaction_summary : Option String
  task_state_snapshot : Option TaskSnapshot
deriving DecidableEq, Repr

/-- Resolved manifest permission string of a file: empty permission dicts are
falsy, absence defaults to `"read"`. -/
def manifest_permission (permissions : List (String × String)) (file_id : String) : String :=
  if permissions.isEmpty then "read" else (alistGet permissions file_id).getD "read"

/-- `build_context_manifest`: split permitted files into read/write lists and
cap the refs to the top 20. -/
def build_context_manifest (session_id task_id : String)
    (permissions : List (String × String))
    (permitted_files_info : List (String × FileInfo)) (viewport : Option ViewportInfo)
    (active_excerpt : Option String) (retrieval_refs : List RetrievalRef)
    (compact_summary : Option String) (task_state : Option TaskSnapshot) : ContextManifest :=
  let entry := fun (p : String × FileInfo) =>
    ManifestFileEntry.mk p.1 p.2.finame p.2.fitype (manifest_permission permissions p.1)
  let read_files := (permitted_files_info.filter
    (fun p => manifest_permission permissions p.1 ≠ "write")).map entry
  let write_files := (permitted_files_info.filter
    (fun p => manifest_permission permissions p.1 = "write")).map entry
  { session_id := session_id
    task_id := task_id
    read_files := read_files
    write_files := write_files
    permitted_total := permitted_files_info.length
    active_viewport := viewport
    active_page_excerpt := active_excerpt
    retrieved_context_refs := retrieval_refs.take 20
    latest_compaction_summary := compact_summary
    task_state_snapshot := task_state }

/-! ## Turn orchestrator (`api/chat.py`)

The module-level registries (`_running_task_by_session`, `_task_to_session`,
`_cancelled_tasks`), the permission-middleware cache, the record store, the
broadcast sink and the uuid/clock source are carried in one `AppState`.
Network collaborators are oracle fields of `TurnEnv`. -/

/-- A model-issued tool call after the `function`-key unwrapping and the
JSON-string argument decode of the loop body (decode failures degrade to
empty arguments). -/
structure ChatToolCall where
  cname : Option String
  arguments : ToolArgs

/-- A completion response of the language-model client. -/
structure LlmResponse where
  content : Option String
  tool_calls : List ChatToolCall
  lmodel : Option String
  usage : List (String × Nat)

/-- The result shape of `parse_task_update` (the JSON/regex scanning itself
is kept behind the `TurnEnv` oracle; when `parsed` is true the service has
already clamped `current_step ≥ 0` and `total_steps ≥ current_step`). -/
structure TaskUpdateParse where
  parsed : Bool
  state : String
  current_step : Int
  total_steps : Int
  next_action : Option String
  blocked_reason : Option String

/-- Result of `load_active_viewport_and_excerpt` (driven by the external
viewport store). -/
structure ActiveCtx where
  viewport : Option ViewportInfo
  excerpt : Option String

/-- Oracles for the turn's external collaborators: the language-model client
(used for the primary and the follow-up call), the `parse_task_update`
scanner, the viewport loader, the gathered retrieval candidates, the tool
registry, the base system prompt text and the generated task uuid. -/
structure TurnEnv where
  llm_complete : List Msg → Option (List ToolSpec) → Except String LlmResponse
  task_update_of : String → TaskUpdateParse
  active_ctx : ActiveCtx
  candidates : List Candidate
  semantic_failed : Bool
  registry : List ToolSpec
  main_system_prompt : String
  fresh_task_id : String

/-- A broadcast progress event. -/
structure TaskEvent where
  event_id : String
  session_id : String
  task_id : String
  event_type : String
  stage : String
  message : String
  progress : Option Int
  status : String
  timestamp : Nat
  payload : List (String × String)

/-- Process-wide mutable state: the task registry, the cancellation set, the
permission cache, the record store, the event sink, the uuid/time counter,
and an instrumentation counter of tool executions. -/
structure AppState where
  running_task_by_session : List (String × String)
  task_to_session : List (String × String)
  cancelled_tasks : List String
  mw_cache : List (String × List (String × PermissionLevel))
  db : Db
  events : List TaskEvent
  clock : Nat
  tool_invocations : Nat

/-- The body of a `ChatRequest`. -/
structure ChatRequest where
  session_id : String
  message : String
  context_files : List String
  viewport_context : Option String
  active_file_id : Option String
  active_page : Option Int
  compact_mode : Option String
  task_id : Option String
  rmodel : Option String
  use_tools : Bool
  permissions : Option (List (String × String))

/-- One entry of the response's `tool_results` list. -/
structure ToolResultEntry where
  tool : Option String
  result : ToolResult
deriving DecidableEq, Repr

/-- The turn's response envelope (`cancelled` is false on the success
shape). -/
structure ChatData where
  message_id : String
  content : String
  role : String
  timestamp : Nat
  tool_calls : List ChatToolCall
  tool_results : List ToolResultEntry
  citations : List Citation
  usage : List (String × Nat)
  rmodel : Option String
  task_id : String
  cancelled : Bool
  task_state : TaskSnapshot
  compact_meta : CompactMeta

/-- Outcome of a turn invocation: a completed/cancelled envelope, a 409
conflict, or a 500 failure. -/
inductive ChatOutcome
  | completed (data : ChatData)
  | conflict (detail : String)
  | serverError (detail : String)

/-- Distinguished signals thrown inside the turn body; the cancellation
signal carries the `compact_meta` local the handler reads. -/
inductive TurnErr
  | cancelled (compact_meta : CompactMeta)
  | failed (message : String)

/-- `uuid4()` / `datetime.utcnow()` modelled by the shared counter. -/
def fresh_uuid (st : AppState) : String × AppState :=
  ("uuid-" ++ toString st.clock, { st with clock := st.clock + 1 })

/-- `_assert_task_not_cancelled`: raise the cancellation signal when the
task id is in the cancellation set. -/
def assert_not_cancelled (st : AppState) (task_id : String) (compact_meta : CompactMeta) :
    Except (AppState × TurnErr) Unit :=
  if st.cancelled_tasks.contains task_id then
    Except.error (st, TurnErr.cancelled compact_meta)
  else Except.ok ()

/-- `_emit_task_event`: broadcast to the session sink and persist a
`task_event` chat message. -/
def emit_task_event (st : AppState) (session_id task_id event_type stage message : String)
    (progress : Option Int) (status : String) (payload : List (String × String))
    (persist : Bool) : AppState :=
  let pair := fresh_uuid st
  let event : TaskEvent :=
    { event_id := pair.1
      session_id := session_id
      task_id := task_id
      event_type := event_type
      stage := stage
      message := message
      progress := progress
      status := status
      timestamp := st.clock
      payload := payload }
  let st := { pair.2 with events := pair.2.events ++ [event] }
  if persist then
    { st with db := { st.db with chat_messages := st.db.chat_messages ++
        [⟨event.event_id, session_id, "task_event", message, event.timestamp⟩] } }
  else st

/-- `PermissionMiddleware._load_permissions`: serve from the session cache,
else read the session row (an unknown session yields an uncached empty
map). -/
def load_permissions (st : AppState) (session_id : String) :
    AppState × List (String × PermissionLevel) :=
  match alistGet st.mw_cache session_id with
  | Option.some permissions => (st, permissions)
  | Option.none =>
    match st.db.sessions.find? (fun s => s.id == session_id) with
    | Option.none => (st, [])
    | Option.some session =>
      let permissions := session.permissions.foldl (fun acc p =>
        match PermissionLevel.ofString p.2 with
        | Option.some level => acc ++ [(p.1, level)]
        | Option.none => acc) []
      ({ st with mw_cache := alistSet st.mw_cache session_id permissions }, permissions)

/-- `ToolExecutor.get_available_tools` with a context: write-restricted tools
are hidden when the session has no writable file. -/
def get_available_tools (registry : List ToolSpec) (context : ToolContext) : List ToolSpec :=
  let writable_files := context.permissions.filter (fun p => p.2 = PermissionLevel.WRITE)
  if writable_files.isEmpty then registry.filter (fun t => ¬ t.writable_only) else registry

/-- `_build_system_prompt` around the base prompt text. -/
def build_system_prompt (base : String) (permissions : List (String × String))
    (permitted_files_info : List (String × FileInfo)) : String :=
  if permitted_files_info.isEmpty then
    base ++ "\n\n=== No Files Accessible ===" ++
      "\nYou don't currently have access to any files. The user can grant access in the file permission controls."
  else
    let header := base ++ "\n\n=== Files You Can Access (" ++
      toString permitted_files_info.length ++ " total) ==="
    let line := fun (suffix : String) (p : String × FileInfo) =>
      "\n- " ++ p.2.finame ++ " (" ++ p.1 ++ ") [" ++ p.2.fitype ++ "] - " ++ suffix
    let write_files := permitted_files_info.filter
      (fun p => manifest_permission permissions p.1 = "write")
    let read_files := permitted_files_info.filter
      (fun p => manifest_permission permissions p.1 ≠ "write")
    header ++
      (if write_files.isEmpty then ""
       else "\n\n[Files with Write Access]:" ++ String.join (write_files.map (line "write"))) ++
      (if read_files.isEmpty then ""
       else "\n\n[Files with Read Access]:" ++ String.join (read_files.map (line "read"))) ++
      "\n\nYou can only access the files listed above. If the user asks about other files, explain that you do not have access and ask for permission changes."

/-- JSON string literal (escaping omitted; only the size matters here). -/
def json_str (s : String) : String := "\"" ++ s ++ "\""

/-- JSON rendering of an optional string. -/
def json_opt_str : Option String → String
  | Option.none => "null"
  | Option.some s => json_str s

/-- JSON rendering of an optional int. -/
def json_opt_int : Option Int → String
  | Option.none => "null"
  | Option.some n => toString n

/-- JSON array from rendered items. -/
def json_list (items : List String) : String :=
  "[" ++ String.intercalate ", " items ++ "]"

/-- JSON rendering of one retrieval ref. -/
def json_ref (r : RetrievalRef) : String :=
  "\x7b\"file_id\": " ++ json_str r.file_id ++ ", \"file_name\": " ++ json_str r.file_name ++
    ", \"page\": " ++ json_opt_int r.page ++ ", \"score\": " ++ toString r.score ++ "\x7d"

/-- JSON rendering of one permitted-file entry. -/
def json_file_entry (e : ManifestFileEntry) : String :=
  "\x7b\"file_id\": " ++ json_str e.file_id ++ ", \"name\": " ++ json_str e.mfname ++
    ", \"type\": " ++ json_str e.mftype ++ ", \"permission\": " ++ json_str e.permission ++ "\x7d"

/-- JSON rendering of the viewport snapshot. -/
def json_viewport : Option ViewportInfo → String
  | Option.none => "null"
  | Option.some v =>
    "\x7b\"file_id\": " ++ json_str v.file_id ++ ", \"file_name\": " ++ json_str v.file_name ++
      ", \"file_type\": " ++ json_str v.file_type ++ ", \"page\": " ++ toString v.page ++
      ", \"visible_range\": " ++
      (match v.visible_range with
       | Option.none => "null"
       | Option.some r => "[" ++ toString r.1 ++ ", " ++ toString r.2 ++ "]") ++ "\x7d"

/-- JSON rendering of the task-state snapshot. -/
def json_snapshot : Option TaskSnapshot → String
  | Option.none => "null"
  | Option.some t =>
    "\x7b\"task_id\": " ++ json_str t.task_id ++ ", \"state\": " ++ json_str t.state ++
      ", \"current_step\": " ++ toString t.current_step ++ ", \"total_steps\": " ++
      toString t.total_steps ++ ", \"next_action\": " ++ json_opt_str t.next_action ++ "\x7d"

/-- `json.dumps` of the manifest (whitespace and escaping approximated; the
string feeds only the size estimates and the model oracle). -/
def manifest_json (m : ContextManifest) : String :=
  "\x7b\"session_id\": " ++ json_str m.session_id ++
    ", \"task_id\": " ++ json_str m.task_id ++
    ", \"permitted_files\": \x7b\"read\": " ++ json_list (m.read_files.map json_file_entry) ++
    ", \"write\": " ++ json_list (m.write_files.map json_file_entry) ++
    ", \"total\": " ++ toString m.permitted_total ++ "\x7d" ++
    ", \"active_viewport\": " ++ json_viewport m.active_viewport ++
    ", \"active_page_excerpt\": " ++ json_opt_str m.active_page_excerpt ++
    ", \"retrieved_context_refs\": " ++ json_list (m.retrieved_context_refs.map json_ref) ++
    ", \"latest_compaction_summary\": " ++ json_opt_str m.latest_compaction_summary ++
    ", \"task_state_snapshot\": " ++ json_snapshot m.task_state_snapshot ++ "\x7d"

/-- Python `repr` of a string-valued dict (for the tool follow-up
messages). -/
def py_dict_repr (d : List (String × String)) : String :=
  "\x7b" ++ String.intercalate ", " (d.map (fun p => "'" ++ p.1 ++ "': '" ++ p.2 ++ "'")) ++
    "\x7d"

/-- The `[Relevant Context from Documents]` blocks in order. -/
def build_context_blocks (manifest_block : String) (viewport_context : Option String)
    (active_excerpt : Option String) (context_parts : List String) : List String :=
  [manifest_block] ++
    (match viewport_context with
     | Option.some v => ["[Current Viewport Context]\n" ++ v]
     | Option.none => []) ++
    (match active_excerpt with
     | Option.some e => ["[Active Viewport Excerpt]\n" ++ e]
     | Option.none => []) ++
    context_parts

/-- The context payload string around the blocks. -/
def build_context_payload (blocks : List String) : String :=
  "[Relevant Context from Documents]:\n" ++ String.intercalate "\n\n" blocks ++
    "\n\nUse this context to answer the user's question. Cite your sources."

/-- The overflow `while` loop, driven by a fuel that the loop guard never
exhausts (each pass requires more than one block and removes one). -/
def trim_context_loop (messages : List Msg) (manifest_block : String)
    (viewport_context : Option String) (active_excerpt : Option String) :
    Nat → List String → List String × String
  | 0, context_parts =>
    (context_parts, build_context_payload
      (build_context_blocks manifest_block viewport_context active_excerpt context_parts))
  | fuel + 1, context_parts =>
    let payload := build_context_payload
      (build_context_blocks manifest_block viewport_context active_excerpt context_parts)
    if settings.COMPACT_FORCE_TOKENS <
        estimate_messages_tokens (messages ++ [Msg.mk "system" payload Option.none]) ∧
        1 < context_parts.length then
      trim_context_loop messages manifest_block viewport_context active_excerpt fuel
        context_parts.dropLast
    else
      (context_parts, payload)

/-- The overflow guard: drop retrieval blocks from the end while the message
estimate exceeds the hard force threshold and more than one block remains. -/
def trim_context_parts (messages : List Msg) (manifest_block : String)
    (viewport_context : Option String) (active_excerpt : Option String)
    (context_parts : List String) : List String × String :=
  trim_context_loop messages manifest_block viewport_context active_excerpt
    context_parts.length context_parts

/-- The running-response fragment appended after a successful tool call. -/
def tool_success_summary (tool_name : Option String) (result : ToolResult) : String :=
  let base := "\n\n[Tool " ++ tool_name.getD "None" ++ " executed successfully"
  let base :=
    match result.data with
    | Option.some d =>
      if d.isEmpty then base
      else
        let b1 := match alistGet d "file_name" with
          | Option.some fn => base ++ " on " ++ fn
          | Option.none => base
        match alistGet d "version_id" with
        | Option.some v => b1 ++ " (version: " ++ v ++ ")"
        | Option.none => b1
    | Option.none => base
  base ++ "]"

/-- Session get-or-create: a new session stores the request permissions; an
existing one is overwritten when the request supplies permissions; both
mutations invalidate the permission cache. -/
def get_or_create_session (st : AppState) (request : ChatRequest) : AppState × SessionRec :=
  match st.db.sessions.find? (fun s => s.id == request.session_id) with
  | Option.none =>
    let session : SessionRec :=
      ⟨request.session_id, "Session " ++ request.session_id.take 8,
       (request.permissions).getD []⟩
    ({ st with
        db := { st.db with sessions := st.db.sessions ++ [session] }
        mw_cache := alistPop st.mw_cache request.session_id }, session)
  | Option.some session =>
    match request.permissions with
    | Option.some perms =>
      let updated := { session with permissions := perms }
      let new_sessions :=
        st.db.sessions.map (fun s => if s.id == request.session_id then updated else s)
      ({ st with
          db := { st.db with sessions := new_sessions }
          mw_cache := alistPop st.mw_cache request.session_id }, updated)
    | Option.none => (st, session)

/-- The visible-file set: explicit context files plus `read`/`write` entries
of the session map, minus `none` entries (underscore-keys skipped); a Python
set modelled as an insertion-ordered duplicate-free list. -/
def visible_file_ids (request : ChatRequest) (session : SessionRec) : List String :=
  session.permissions.foldl (fun acc p =>
    if p.1.startsWith "_" then acc
    else if p.2 = "read" ∨ p.2 = "write" then
      (if acc.contains p.1 then acc else acc ++ [p.1])
    else if p.2 = "none" then acc.filter (fun x => x != p.1)
    else acc) request.context_files.eraseDups

/-- The sequential tool-call loop: checkpoint, progress events, execution
through the executor, running-response fragments, and a per-call task-state
transition. -/
def tool_loop (env : TurnEnv) (context : ToolContext) (request : ChatRequest)
    (task_id : String) (compact_meta : CompactMeta) (total_calls : Nat) :
    List ChatToolCall → Nat → AppState → String → List ToolResultEntry →
    Except (AppState × TurnErr) (AppState × String × List ToolResultEntry)
  | [], _, st, final_content, acc => Except.ok (st, final_content, acc)
  | call :: rest, idx, st, final_content, acc => do
    let _ ← assert_not_cancelled st task_id compact_meta
    let tool_progress : Int := 55 + Int.ofNat (((idx + 1) * 25) / max total_calls 1)
    let tname := call.cname.getD "None"
    let st := emit_task_event st request.session_id task_id "tool_started" "executing"
      ("Running tool: " ++ tname) (Option.some tool_progress) "running"
      [("tool", tname), ("index", toString (idx + 1)), ("total", toString total_calls)] true
    let st := { st with tool_invocations := st.tool_invocations + 1 }
    let result := ToolExecutor_execute env.registry st.db.files call.cname call.arguments
      context true
    let acc := acc ++ [⟨call.cname, result⟩]
    let final_content := final_content ++
      (if result.success then tool_success_summary call.cname result
       else "\n\n[Tool Error: " ++ (result.error.getD "None") ++ "]")
    let st := emit_task_event st request.session_id task_id "tool_completed" "executing"
      ("Tool finished: " ++ tname) (Option.some tool_progress) "running"
      [("tool", tname), ("success", toString result.success),
       ("error", result.error.getD "None")] true
    let up := upsert_task_state st.db request.session_id task_id "executing" request.message
      (min (2 + Int.ofNat idx + 1) (max 2 (Int.ofNat total_calls + 2)))
      (max 2 (Int.ofNat total_calls + 2)) Option.none Option.none Option.none
      [("stage", "tool_execution")]
      [("last_tool", tname), ("tool_index", toString (idx + 1)),
       ("tool_total", toString total_calls)] st.clock
    let st := { st with db := up.1, clock := st.clock + 1 }
    tool_loop env context request task_id compact_meta total_calls rest (idx + 1) st
      final_content acc

/-- The turn body between `try` and the handlers, with the cancellation
checkpoints of the source in place. -/
def turn_body (env : TurnEnv) (request : ChatRequest) (task_id : String)
    (user_message : ChatMessageRec) (st0 : AppState) :
    Except (AppState × TurnErr) (AppState × ChatData) := do
  let initial_meta : CompactMeta :=
    ⟨false, Option.none, Option.none, Option.none, Option.none⟩
  let pair := get_or_create_session st0 request
  let st := pair.1
  let session := pair.2
  let _ ← assert_not_cancelled st task_id initial_meta
  let st := emit_task_event st request.session_id task_id "task_started" "planning"
    "Task started" (Option.some 5) "running" [] true
  let up1 := upsert_task_state st.db request.session_id task_id "planning" request.message
    0 0 Option.none Option.none Option.none [("mode", "auto")] [] st.clock
  let st := { st with db := up1.1, clock := st.clock + 1 }
  let task_state_snapshot := up1.2
  let visible := visible_file_ids request session
  let permitted_files_info : List (String × FileInfo) :=
    if visible.isEmpty then []
    else (st.db.files.filter (fun f => visible.contains f.id && f.ftype != "folder")).map
      (fun f => (f.id, FileInfo.mk f.fname f.ftype))
  let loaded := load_permissions st request.session_id
  let st := loaded.1
  let context : ToolContext := ⟨request.session_id, loaded.2⟩
  let explicit_none := (context.permissions.filter
    (fun p => p.2 = PermissionLevel.NONE)).map (·.1)
  let readable_files := visible.filter (fun fid => ¬ explicit_none.contains fid)
  let active_viewport := env.active_ctx.viewport
  let active_excerpt := env.active_ctx.excerpt
  let retrieval_result := retrieve_context_blocks readable_files env.candidates
    permitted_files_info env.semantic_failed
  let citations := retrieval_result.citations
  let retrieval_refs := retrieval_result.retrieval_refs
  let history_messages :=
    (st.db.chat_messages.filter (fun m => m.session_id == request.session_id)).take 200
  let base_messages :=
    Msg.mk "system"
        (build_system_prompt env.main_system_prompt session.permissions permitted_files_info)
        Option.none ::
      ((history_messages.filter (fun m => m.role == "user" || m.role == "assistant")).map
        (fun m => Msg.mk m.role m.content Option.none) ++
       [Msg.mk "user" request.message Option.none])
  let idpair := fresh_uuid st
  let st := idpair.2
  let compact_mode := match request.compact_mode with
    | Option.some m => if m = "" then "auto" else m
    | Option.none => "auto"
  let compaction := maybe_compact_history st.db request.session_id history_messages
    base_messages compact_mode idpair.1
  let st := { st with db := compaction.1 }
  let messages0 := compaction.2.messages
  let compact_meta := compaction.2.compact_meta
  let latest_compact_summary := compaction.2.latest_summary
  let manifest := build_context_manifest request.session_id task_id session.permissions
    permitted_files_info active_viewport active_excerpt retrieval_refs
    latest_compact_summary (Option.some task_state_snapshot)
  let manifest_block := "[Context Manifest]\n```json\n" ++ manifest_json manifest ++ "\n```"
  let trimmed := trim_context_parts messages0 manifest_block request.viewport_context
    active_excerpt retrieval_result.context_parts
  let context_parts := trimmed.1
  let messages := messages0 ++ [Msg.mk "system" trimmed.2 Option.none]
  let _ ← assert_not_cancelled st task_id compact_meta
  let st := emit_task_event st request.session_id task_id "context_ready" "planning"
    ("Prepared context manifest + " ++ toString context_parts.length ++ " retrieval blocks")
    (Option.some 25) "running"
    [("context_block_count", toString context_parts.length),
     ("retrieval_used_tokens", toString retrieval_result.used_tokens),
     ("semantic_fallback", toString retrieval_result.semantic_failed),
     ("compact_triggered", toString compact_meta.triggered)] true
  let up2 := upsert_task_state st.db request.session_id task_id "executing" request.message
    1 1 Option.none Option.none Option.none [("stage", "context_ready")]
    [("manifest_retrieval_refs_count", toString retrieval_refs.length)] st.clock
  let st := { st with db := up2.1, clock := st.clock + 1 }
  let available_tools :=
    if request.use_tools then Option.some (get_available_tools env.registry context)
    else Option.none
  let _ ← assert_not_cancelled st task_id compact_meta
  let st := emit_task_event st request.session_id task_id "model_call_started" "executing"
    "Calling language model" (Option.some 35) "running" [] true
  let response ← match env.llm_complete messages available_tools with
    | Except.ok r => Except.ok r
    | Except.error e => Except.error (st, TurnErr.failed e)
  let _ ← assert_not_cancelled st task_id compact_meta
  let st := emit_task_event st request.session_id task_id "model_call_completed" "executing"
    "Model returned initial response" (Option.some 55) "running"
    [("tool_call_count", toString response.tool_calls.length)] true
  let tool_call_count := response.tool_calls.length
  let task_update := env.task_update_of (response.content.getD "")
  let up3 :=
    if task_update.parsed then
      upsert_task_state st.db request.session_id task_id task_update.state request.message
        task_update.current_step (max task_update.total_steps 2) task_update.next_action
        task_update.blocked_reason Option.none [("stage", "model_task_update")]
        [("tool_call_count", toString tool_call_count)] st.clock
    else
      upsert_task_state st.db request.session_id task_id "executing" request.message
        2 (max 2 (Int.ofNat tool_call_count + 2)) Option.none Option.none Option.none
        [("stage", "model_call_completed")]
        [("tool_call_count", toString tool_call_count)] st.clock
  let st := { st with db := up3.1, clock := st.clock + 1 }
  let final_content := response.content.getD ""
  let looped ←
    if request.use_tools ∧ ¬ response.tool_calls.isEmpty then
      tool_loop env context request task_id compact_meta response.tool_calls.length
        response.tool_calls 0 st final_content []
    else Except.ok (st, final_content, ([] : List ToolResultEntry))
  let st := looped.1
  let final_content := looped.2.1
  let tool_results := looped.2.2
  let followed ←
    if request.use_tools ∧ ¬ response.tool_calls.isEmpty ∧ ¬ tool_results.isEmpty then do
      let _ ← assert_not_cancelled st task_id compact_meta
      let st := emit_task_event st request.session_id task_id "followup_started" "executing"
        "Generating final response with tool results" (Option.some 85) "running" [] true
      let fmessages := messages ++
        [Msg.mk "assistant" (response.content.getD "") Option.none] ++
        tool_results.map (fun tr => Msg.mk "tool"
          (if tr.result.success then
            "Tool executed successfully: " ++ py_dict_repr (tr.result.data.getD [])
           else "Tool failed: " ++ (tr.result.error.getD "Unknown error")) tr.tool)
      match env.llm_complete fmessages available_tools with
      | Except.ok followup =>
        Except.ok (st, followup.content.getD final_content,
          if followup.lmodel.isSome then followup.lmodel else response.lmodel)
      | Except.error _ => Except.ok (st, final_content, response.lmodel)
    else Except.ok (st, final_content, response.lmodel)
  let st := followed.1
  let final_content := followed.2.1
  let response_model := followed.2.2
  let _ ← assert_not_cancelled st task_id compact_meta
  let st := { st with db := { st.db with chat_messages := st.db.chat_messages ++
    [user_message] } }
  let ampair := fresh_uuid st
  let st := ampair.2
  let assistant_message : ChatMessageRec :=
    ⟨ampair.1, request.session_id, "assistant", final_content, st.clock⟩
  let st := { st with db := { st.db with chat_messages := st.db.chat_messages ++
    [assistant_message] }, clock := st.clock + 1 }
  let up4 := upsert_task_state st.db request.session_id task_id "done" request.message
    (max 2 (Int.ofNat tool_results.length + 2)) (max 2 (Int.ofNat tool_results.length + 2))
    Option.none Option.none (Option.some assistant_message.id) [("stage", "completed")]
    [("tool_result_count", toString tool_results.length)] st.clock
  let st := { st with db := up4.1, clock := st.clock + 1 }
  let st := emit_task_event st request.session_id task_id "task_completed" "done"
    "Task completed" (Option.some 100) "completed" [] true
  let st := { st with cancelled_tasks := listDiscard st.cancelled_tasks task_id }
  Except.ok (st,
    { message_id := assistant_message.id
      content := final_content
      role := "assistant"
      timestamp := assistant_message.timestamp
      tool_calls := response.tool_calls
      tool_results := tool_results
      citations := citations
      usage := response.usage
      rmodel := response_model
      task_id := task_id
      cancelled := false
      task_state := up4.2
      compact_meta := compact_meta })

/-- The `TaskCancelledError` handler: persist the user message, a cancelled
assistant message, a `blocked` task state with reason `cancelled_by_user`,
emit the cancellation event, and build the cancelled envelope. -/
def cancelled_turn (request : ChatRequest) (task_id : String)
    (user_message : ChatMessageRec) (compact_meta : CompactMeta) (st : AppState) :
    AppState × ChatData :=
  let st := { st with db := { st.db with chat_messages := st.db.chat_messages ++
    [user_message] } }
  let pair := fresh_uuid st
  let st := pair.2
  let cancelled_message : ChatMessageRec :=
    ⟨pair.1, request.session_id, "assistant", "Task cancelled by user.", st.clock⟩
  let st := { st with db := { st.db with chat_messages := st.db.chat_messages ++
    [cancelled_message] }, clock := st.clock + 1 }
  let up := upsert_task_state st.db request.session_id task_id "blocked" request.message
    0 0 Option.none (Option.some "cancelled_by_user") (Option.some cancelled_message.id)
    [("stage", "cancelled")] [] st.clock
  let st := { st with db := up.1, clock := st.clock + 1 }
  let st := emit_task_event st request.session_id task_id "task_cancelled" "blocked"
    "Task cancelled by user" (Option.some 100) "cancelled" [] true
  (st,
   { message_id := cancelled_message.id
     content := cancelled_message.content
     role := "assistant"
     timestamp := cancelled_message.timestamp
     tool_calls := []
     tool_results := []
     citations := []
     usage := []
     rmodel := Option.none
     task_id := task_id
     cancelled := true
     task_state := up.2
     compact_meta := compact_meta })

/-- The generic exception handler: persist the user message, a failure
message, a `blocked` task state with the error text, and emit the failure
event (the subsequent HTTP 500 is the `serverError` outcome). -/
def failed_turn (request : ChatRequest) (task_id : String)
    (user_message : ChatMessageRec) (error_text : String) (st : AppState) : AppState :=
  let st := { st with db := { st.db with chat_messages := st.db.chat_messages ++
    [user_message] } }
  let pair := fresh_uuid st
  let st := pair.2
  let error_message : ChatMessageRec :=
    ⟨pair.1, request.session_id, "assistant", "Task failed: " ++ error_text, st.clock⟩
  let st := { st with db := { st.db with chat_messages := st.db.chat_messages ++
    [error_message] }, clock := st.clock + 1 }
  let up := upsert_task_state st.db request.session_id task_id "blocked" request.message
    0 0 Option.none (Option.some (short_text error_text 600))
    (Option.some error_message.id) [("stage", "failed")] [] st.clock
  let st := { st with db := up.1, clock := st.clock + 1 }
  emit_task_event st request.session_id task_id "task_failed" "blocked"
    ("Task failed: " ++ error_text) (Option.some 100) "failed" [] true

/-- `request.task_id or str(uuid.uuid4())` (empty strings are falsy). -/
def request_task_id (env : TurnEnv) (request : ChatRequest) : String :=
  match request.task_id with
  | Option.some t => if t = "" then env.fresh_task_id else t
  | Option.none => env.fresh_task_id

/-- The `finally` block: remove both registry entries and the cancellation
flag. -/
def finalize_registry (st : AppState) (session_id task_id : String) : AppState :=
  { st with
      running_task_by_session := alistPop st.running_task_by_session session_id
      task_to_session := alistPop st.task_to_session task_id
      cancelled_tasks := listDiscard st.cancelled_tasks task_id }

/-- The registered part of a turn: record both registry directions, create
the user message, run the body, dispatch the handlers, and always run the
finalizer. -/
def run_turn (env : TurnEnv) (request : ChatRequest) (task_id : String) (st : AppState) :
    AppState × ChatOutcome :=
  let st := { st with
      running_task_by_session :=
        alistSet st.running_task_by_session request.session_id task_id
      task_to_session := alistSet st.task_to_session task_id request.session_id }
  let pair := fresh_uuid st
  let st := pair.2
  let user_message : ChatMessageRec :=
    ⟨pair.1, request.session_id, "user", request.message, st.clock⟩
  match turn_body env request task_id user_message st with
  | Except.ok (st1, data) =>
    (finalize_registry st1 request.session_id task_id, ChatOutcome.completed data)
  | Except.error (st1, TurnErr.cancelled meta) =>
    let handled := cancelled_turn request task_id user_message meta st1
    (finalize_registry handled.1 request.session_id task_id,
     ChatOutcome.completed handled.2)
  | Except.error (st1, TurnErr.failed e) =>
    let handled := failed_turn request task_id user_message e st1
    (finalize_registry handled request.session_id task_id,
     ChatOutcome.serverError ("Failed to get LLM response: " ++ e))

/-- `chat_completion`: the single-flight registry check rejects a session
whose slot holds a different truthy task id before any registration or
persistence; otherwise the turn runs. -/
def chat_completion (env : TurnEnv) (request : ChatRequest) (st : AppState) :
    AppState × ChatOutcome :=
  let task_id := request_task_id env request
  match alistGet st.running_task_by_session request.session_id with
  | Option.some existing_task_id =>
    if existing_task_id ≠ "" ∧ existing_task_id ≠ task_id then
      (st, ChatOutcome.conflict ("Session already has a running task (" ++
        existing_task_id ++ "). Cancel it before starting a new one."))
    else run_turn env request task_id st
  | Option.none => run_turn env request task_id st

/-- The `cancel_task` endpoint: resolve a target session (404 as
`Option.none`), mark the cancellation set, and broadcast the
`cancel_requested` event. -/
def cancel_task (st : AppState) (task_id : String) (session_id : Option String) :
    AppState × Option (String × String) :=
  let target :=
    match alistGet st.task_to_session task_id with
    | Option.some s => Option.some s
    | Option.none => session_id
  match target with
  | Option.none => (st, Option.none)
  | Option.some target_session =>
    let st := { st with cancelled_tasks :=
      if st.cancelled_tasks.contains task_id then st.cancelled_tasks
      else st.cancelled_tasks ++ [task_id] }
    let pair := fresh_uuid st
    let st := pair.2
    let event : TaskEvent :=
      { event_id := pair.1
        session_id := target_session
        task_id := task_id
        event_type := "cancel_requested"
        stage := "blocked"
        message := "Cancellation requested"
        progress := Option.none
        status := "cancelling"
        timestamp := st.clock
        payload := [] }
    ({ st with events := st.events ++ [event] }, Option.some (task_id, target_session))

/-! ## Concrete sample inputs for the claim witnesses -/

/-- An empty record store, for concrete evaluations. -/
def emptyDb : Db := ⟨[], [], [], [], []⟩

/-- The snapshot of one task-state upsert called with a negative
`current_step` and a `total_steps` below it. -/
def c3_sample_snapshot : TaskSnapshot :=
  (upsert_task_state emptyDb "s" "t" "executing" "g" (-3) (-5)
    Option.none Option.none Option.none [] [] 0).2

/-- Eight alternating user/assistant history rows with tiny contents. -/
def c1_history : List ChatMessageRec :=
  (List.range 8).map (fun i =>
    ⟨"m" ++ toString i, "s", if i % 2 = 0 then "user" else "assistant", "hello", i⟩)

/-- The compaction outcome on that history in `auto` mode with a tiny
pre-compaction message list. -/
def c1_result : CompactResult :=
  (maybe_compact_history emptyDb "s" c1_history [Msg.mk "user" "hi" Option.none]
    "auto" "c").2

/-- Ten alternating user/assistant history rows. -/
def c2_history : List ChatMessageRec :=
  (List.range 10).map (fun i =>
    ⟨"h" ++ toString i, "s", if i % 2 = 0 then "user" else "assistant",
     "step " ++ toString i, i⟩)

/-- Two tiny candidates for the C7 witness. -/
def c7_candidates : List Candidate :=
  [⟨"fa", Option.some 1, Option.some 0, "alpha beta", 2⟩,
   ⟨"fb", Option.some 2, Option.some 1, "gamma", 5⟩]

/-- Twenty-one candidates with distinct keys and tiny contents. -/
def c4_candidates : List Candidate :=
  (List.range 21).map (fun i =>
    ⟨"f" ++ toString i, Option.some 1, Option.some (Int.ofNat i), "abcd", (i : ℚ)⟩)

/-- A permissionless tool with one required string field. -/
def c8_tool_echo : ToolSpec :=
  ⟨"echo", Option.none, false, ["text"], [("text", "string")],
   fun _ => ToolRunOutcome.ok ⟨true, Option.none, Option.none, Option.none⟩⟩

/-- A write-restricted tool. -/
def c8_tool_edit : ToolSpec :=
  ⟨"edit", Option.some PermissionLevel.WRITE, true, [], [],
   fun _ => ToolRunOutcome.ok ⟨true, Option.none, Option.none, Option.none⟩⟩

/-- A tool whose execution raises. -/
def c8_tool_boom : ToolSpec :=
  ⟨"boom", Option.none, false, [], [], fun _ => ToolRunOutcome.raised "kaput"⟩

/-- The sample registry. -/
def c8_registry : List ToolSpec := [c8_tool_echo, c8_tool_edit, c8_tool_boom]

/-- The sample context: one readable file. -/
def c8_context : ToolContext := ⟨"s", [("doc", PermissionLevel.READ)]⟩

/-- A write-requiring, write-restricted tool for the C9 witness. -/
def c9_tool : ToolSpec :=
  ⟨"update_doc", Option.some PermissionLevel.WRITE, true, [], [],
   fun _ => ToolRunOutcome.ok ⟨true, Option.none, Option.none, Option.none⟩⟩

/-- Arguments targeting file `doc`. -/
def c9_args : ToolArgs := [("file_id", ArgVal.s "doc")]

/-- Outcome classifier: is the outcome a 409 conflict? -/
def ChatOutcome.isConflict : ChatOutcome → Bool
  | ChatOutcome.conflict _ => true
  | _ => false

/-- A minimal turn environment: the model returns a plain answer, no tool
calls, no retrieval candidates, no registered tools. -/
def sampleEnv : TurnEnv :=
  { llm_complete := fun _ _ => Except.ok ⟨Option.some "ok", [], Option.none, []⟩
    task_update_of := fun _ => ⟨false, "", 0, 0, Option.none, Option.none⟩
    active_ctx := ⟨Option.none, Option.none⟩
    candidates := []
    semantic_failed := false
    registry := []
    main_system_prompt := ""
    fresh_task_id := "fresh" }

/-- App state whose registry already holds running task `T` for session
`s`. -/
def c5_busy_state : AppState := ⟨[("s", "T")], [("T", "s")], [], [], emptyDb, [], 0, 0⟩

/-- A turn request for session `s` reusing the running task id `T`. -/
def c5_same_request : ChatRequest :=
  ⟨"s", "hi", [], Option.none, Option.none, Option.none, Option.none, Option.some "T",
   Option.none, false, Option.none⟩

/-- A turn request for session `s` with a distinct task id `U`. -/
def c5_new_request : ChatRequest :=
  ⟨"s", "hi", [], Option.none, Option.none, Option.none, Option.none, Option.some "U",
   Option.none, false, Option.none⟩

/-- App state whose cancellation set already holds task `T`. -/
def c6_cancelled_state : AppState := ⟨[], [], ["T"], [], emptyDb, [], 0, 0⟩

/-- A turn request for session `s` supplying task id `T`. -/
def c6_request : ChatRequest :=
  ⟨"s", "do it", [], Option.none, Option.none, Option.none, Option.none, Option.some "T",
   Option.none, false, Option.none⟩

/-! ## Shared lemmas -/

/-- The snapshot returned by the task-state upsert echoes the caller-supplied
values in every branch. -/
theorem upsert_snapshot_spec (db : Db) (session_id task_id state goal : String)
    (current_step total_steps : Int)
    (next_action blocked_reason last_message_id : Option String)
    (plan_json artifacts_json : List (String × String)) (now : Nat) :
    (upsert_task_state db session_id task_id state goal current_step total_steps
        next_action blocked_reason last_message_id plan_json artifacts_json now).2 =
      ⟨task_id, state, current_step, total_steps,
       resolve_next_action next_action state⟩ := by
  unfold upsert_task_state
  split
  · rfl
  · split <;> rfl

/-- The task-state upsert persists a row for the session carrying exactly the
caller-supplied values. -/
theorem upsert_row_spec (db : Db) (session_id task_id state goal : String)
    (current_step total_steps : Int)
    (next_action blocked_reason last_message_id : Option String)
    (plan_json artifacts_json : List (String × String)) (now : Nat) :
    ∃ row ∈ (upsert_task_state db session_id task_id state goal current_step total_steps
        next_action blocked_reason last_message_id plan_json artifacts_json now).1.task_states,
      row.session_id = session_id ∧ row.task_id = task_id ∧ row.state = state ∧
      row.current_step = current_step ∧ row.total_steps = total_steps ∧
      row.blocked_reason = blocked_reason := by
  unfold upsert_task_state
  split
  · next hdis => exact absurd rfl hdis
  · split
    · exact ⟨_, List.mem_append_right _ (List.mem_singleton_self _),
        rfl, rfl, rfl, rfl, rfl, rfl⟩
    · next old heq =>
      have hm := List.mem_of_find?_eq_some heq
      have hp := List.find?_some heq
      have hps : old.session_id = session_id := by simpa using hp
      refine ⟨_, List.mem_map_of_mem _ hm, ?_⟩
      simp [hp, hps]

/-! ## Claim C3 -/

/-- C3 is false as stated: `upsert_task_state` applies no clamping, so a
caller-supplied negative `current_step` (here `-3`, with `total_steps = -5`)
is returned and persisted as is. -/
theorem c3_counterexample :
    ¬ (0 ≤ c3_sample_snapshot.current_step ∧
       c3_sample_snapshot.current_step ≤ c3_sample_snapshot.total_steps) := by
  decide

/-- C3 (amended): `upsert_task_state` returns and persists the
caller-supplied `current_step` and `total_steps` unchanged — the clamping
`current_step ≥ 0`, `total_steps ≥ current_step` is not performed by the
upsert (it lives in `parse_task_update`, upstream of the orchestrator's
calls). -/
theorem c3_upsert_passthrough (db : Db) (session_id task_id state goal : String)
    (current_step total_steps : Int)
    (next_action blocked_reason last_message_id : Option String)
    (plan_json artifacts_json : List (String × String)) (now : Nat) :
    ((upsert_task_state db session_id task_id state goal current_step total_steps
        next_action blocked_reason last_message_id plan_json artifacts_json now).2.current_step
        = current_step ∧
     (upsert_task_state db session_id task_id state goal current_step total_steps
        next_action blocked_reason last_message_id plan_json artifacts_json now).2.total_steps
        = total_steps) ∧
    ∃ row ∈ (upsert_task_state db session_id task_id state goal current_step total_steps
        next_action blocked_reason last_message_id plan_json artifacts_json now).1.task_states,
      row.session_id = session_id ∧ row.current_step = current_step ∧
      row.total_steps = total_steps := by
  constructor
  · rw [upsert_snapshot_spec]
    exact ⟨rfl, rfl⟩
  · obtain ⟨row, hmem, hsid, -, -, hcs, hts, -⟩ :=
      upsert_row_spec db session_id task_id state goal current_step total_steps
        next_action blocked_reason last_message_id plan_json artifacts_json now
    exact ⟨row, hmem, hsid, hcs, hts⟩

/-! ## Claim C1 -/

/-- C1 is false as stated: with more than 6 conversational turns but an
estimated size below the trigger threshold, `auto` mode does not trigger —
the turn-count condition alone is not sufficient. -/
theorem c1_counterexample :
    6 < (conversational_messages c1_history).length ∧
    estimate_messages_tokens [Msg.mk "user" "hi" Option.none] <
      settings.COMPACT_TRIGGER_TOKENS ∧
    c1_result.compact_meta.triggered = false := by
  decide

/-- C1 (amended): in `auto` mode with global compaction enabled, compaction
triggers exactly when the estimated token size of the pre-compaction
messages meets the trigger threshold AND the conversational turn count
exceeds 6 — both conditions are required, neither alone suffices. -/
theorem c1_auto_trigger_iff (db : Db) (session_id : String)
    (history_messages : List ChatMessageRec) (pre_compact_messages : List Msg)
    (compaction_id : String) :
    (maybe_compact_history db session_id history_messages pre_compact_messages "auto"
        compaction_id).2.compact_meta.triggered = true ↔
      (settings.COMPACT_TRIGGER_TOKENS ≤ estimate_messages_tokens pre_compact_messages ∧
       6 < (conversational_messages history_messages).length) := by
  have hoff : ¬ (py_lower (if ("auto" : String) = "" then "auto" else "auto") = "off" ∨
      ¬ settings.AUTO_COMPACT_ENABLED = true) := by decide
  simp only [maybe_compact_history]
  rw [if_neg hoff]
  by_cases hA : estimate_messages_tokens pre_compact_messages <
      settings.COMPACT_TRIGGER_TOKENS
  · rw [if_pos ⟨hA, by decide⟩]
    refine iff_of_false (by simp) ?_
    rintro ⟨h, -⟩
    omega
  · rw [if_neg (fun hc => hA hc.1)]
    by_cases hB : (conversational_messages history_messages).length ≤ 6
    · rw [if_pos hB]
      refine iff_of_false (by simp) ?_
      rintro ⟨-, h⟩
      omega
    · rw [if_neg hB]
      refine iff_of_true (by simp) ⟨by omega, by omega⟩

/-! ## Claim C2 -/

/-- C2: a `force`-mode call whose history holds more than 6 conversational
messages persists exactly one new compaction record, carrying the session id
and the previous maximum sequence plus one, whatever the token sizes. -/
theorem c2_force_compaction_record (db : Db) (session_id : String)
    (history_messages : List ChatMessageRec) (pre_compact_messages : List Msg)
    (compaction_id : String)
    (h : 6 < (conversational_messages history_messages).length) :
    ∃ record : CompactionRec,
      (maybe_compact_history db session_id history_messages pre_compact_messages "force"
          compaction_id).1.compactions = db.compactions ++ [record] ∧
      record.session_id = session_id ∧
      record.sequence = session_max_sequence db session_id + 1 ∧
      (maybe_compact_history db session_id history_messages pre_compact_messages "force"
          compaction_id).2.compact_meta.triggered = true := by
  have hoff : ¬ (py_lower (if ("force" : String) = "" then "auto" else "force") = "off" ∨
      ¬ settings.AUTO_COMPACT_ENABLED = true) := by decide
  simp only [maybe_compact_history]
  rw [if_neg hoff, if_neg (fun hc => hc.2 (by decide)), if_neg (by omega :
    ¬ (conversational_messages history_messages).length ≤ 6)]
  exact ⟨_, rfl, rfl, rfl, rfl⟩

/-- Witness for C2 at a concrete force-mode call. -/
theorem c2_force_compaction_record_witness :
    ∃ record : CompactionRec,
      (maybe_compact_history emptyDb "s" c2_history [] "force" "c").1.compactions =
        emptyDb.compactions ++ [record] ∧
      record.session_id = "s" ∧
      record.sequence = session_max_sequence emptyDb "s" + 1 ∧
      (maybe_compact_history emptyDb "s" c2_history [] "force" "c").2.compact_meta.triggered
        = true :=
  c2_force_compaction_record emptyDb "s" c2_history [] "c" (by decide)

/-! ## Retrieval walk lemmas -/

/-- The budget walk emits exactly one formatted block, one citation and one
ref per accepted candidate, and returns the running total over the accepted
estimates. -/
theorem accept_walk_spec (permitted_files_info : List (String × FileInfo))
    (l : List Candidate) (used : Nat) :
    accept_walk permitted_files_info l used =
      ((accepted_candidates l used).map format_context_part,
       (accepted_candidates l used).map make_citation,
       (accepted_candidates l used).map (make_ref permitted_files_info),
       used + ((accepted_candidates l used).map (fun c => estimate_tokens c.content)).sum) := by
  induction l generalizing used with
  | nil => simp [accept_walk, accepted_candidates]
  | cons c rest ih =>
    by_cases h : settings.DOC_CONTEXT_BUDGET_TOKENS < used + estimate_tokens c.content
    · simp [accept_walk, accepted_candidates, h, ih]
    · simp [accept_walk, accepted_candidates, h, ih, Nat.add_assoc]

/-- The accepted candidates form a sublist of the walked list: a candidate
over budget is skipped whole and the walk continues. -/
theorem accepted_candidates_sublist (l : List Candidate) (used : Nat) :
    List.Sublist (accepted_candidates l used) l := by
  induction l generalizing used with
  | nil => simp [accepted_candidates]
  | cons c rest ih =>
    by_cases h : settings.DOC_CONTEXT_BUDGET_TOKENS < used + estimate_tokens c.content
    · simp only [accepted_candidates, if_pos h]
      exact (ih used).cons c
    · simp only [accepted_candidates, if_neg h]
      exact (ih (used + estimate_tokens c.content)).cons₂ c

/-- The accepted estimates extend the running total to at most the budget. -/
theorem accepted_candidates_sum_le (l : List Candidate) (used : Nat)
    (h : used ≤ settings.DOC_CONTEXT_BUDGET_TOKENS) :
    used + ((accepted_candidates l used).map (fun c => estimate_tokens c.content)).sum ≤
      settings.DOC_CONTEXT_BUDGET_TOKENS := by
  induction l generalizing used with
  | nil => simpa [accepted_candidates]
  | cons c rest ih =>
    by_cases hc : settings.DOC_CONTEXT_BUDGET_TOKENS < used + estimate_tokens c.content
    · simpa [accepted_candidates, hc] using ih used h
    · have := ih (used + estimate_tokens c.content) (by omega)
      simp only [accepted_candidates, if_neg hc, List.map_cons, List.sum_cons]
      omega

/-! ## Claim C7 -/

/-- C7: the deduplicated candidates are walked in descending score order;
each accepted candidate contributes its whole content as one block (never
truncated) while over-budget candidates are skipped and the walk continues;
and the accepted token estimates sum to the reported `used_tokens`, which
never exceeds the per-turn document budget. -/
theorem c7_retrieval_budget_walk (readable_files : List String)
    (candidates : List Candidate) (permitted_files_info : List (String × FileInfo))
    (semantic_failed : Bool) (h : readable_files ≠ []) :
    List.Sorted (fun a b : Candidate => b.score ≤ a.score) (ranked_candidates candidates) ∧
    List.Sublist (accepted_candidates (ranked_candidates candidates) 0) (ranked_candidates candidates) ∧
    (retrieve_context_blocks readable_files candidates permitted_files_info
        semantic_failed).context_parts =
      (accepted_candidates (ranked_candidates candidates) 0).map format_context_part ∧
    (retrieve_context_blocks readable_files candidates permitted_files_info
        semantic_failed).retrieval_refs =
      (accepted_candidates (ranked_candidates candidates) 0).map
        (make_ref permitted_files_info) ∧
    (retrieve_context_blocks readable_files candidates permitted_files_info
        semantic_failed).used_tokens =
      ((accepted_candidates (ranked_candidates candidates) 0).map
        (fun c => estimate_tokens c.content)).sum ∧
    ((accepted_candidates (ranked_candidates candidates) 0).map
        (fun c => estimate_tokens c.content)).sum ≤ settings.DOC_CONTEXT_BUDGET_TOKENS := by
  have htrans : ∀ a b c : Candidate, score_ge a b = true → score_ge b c = true →
      score_ge a c = true := by
    intro a b c hab hbc
    simp only [score_ge, decide_eq_true_eq] at *
    exact le_trans hbc hab
  have htotal : ∀ a b : Candidate, (score_ge a b || score_ge b a) = true := by
    intro a b
    simp only [score_ge, Bool.or_eq_true, decide_eq_true_eq]
    exact le_total b.score a.score
  have hsorted := List.sorted_mergeSort htrans htotal (dedup_candidates candidates)
  have hempty : readable_files.isEmpty = false := by
    cases readable_files with
    | nil => exact absurd rfl h
    | cons a l => rfl
  refine ⟨?_, accepted_candidates_sublist _ 0, ?_, ?_, ?_, ?_⟩
  · exact hsorted.imp (fun hab => by simpa [score_ge, decide_eq_true_eq] using hab)
  · simp [retrieve_context_blocks, hempty, accept_walk_spec]
  · simp [retrieve_context_blocks, hempty, accept_walk_spec]
  · simp [retrieve_context_blocks, hempty, accept_walk_spec]
  · simpa using accepted_candidates_sum_le (ranked_candidates candidates) 0 (Nat.zero_le _)

/-- Witness for C7 at a concrete retrieval call. -/
theorem c7_retrieval_budget_walk_witness :
    List.Sorted (fun a b : Candidate => b.score ≤ a.score) (ranked_candidates c7_candidates) ∧
    List.Sublist (accepted_candidates (ranked_candidates c7_candidates) 0) (ranked_candidates c7_candidates) ∧
    (retrieve_context_blocks ["fa"] c7_candidates [] false).context_parts =
      (accepted_candidates (ranked_candidates c7_candidates) 0).map format_context_part ∧
    (retrieve_context_blocks ["fa"] c7_candidates [] false).retrieval_refs =
      (accepted_candidates (ranked_candidates c7_candidates) 0).map (make_ref []) ∧
    (retrieve_context_blocks ["fa"] c7_candidates [] false).used_tokens =
      ((accepted_candidates (ranked_candidates c7_candidates) 0).map
        (fun c => estimate_tokens c.content)).sum ∧
    ((accepted_candidates (ranked_candidates c7_candidates) 0).map
        (fun c => estimate_tokens c.content)).sum ≤ settings.DOC_CONTEXT_BUDGET_TOKENS :=
  c7_retrieval_budget_walk ["fa"] c7_candidates [] false (by decide)

/-! ## Claim C4 -/

unseal List.merge List.mergeSort in
/-- C4 is false as stated: with 21 small deduplicated candidates all under
budget, `retrieve_context_blocks` returns 21 retrieval refs — the function
itself applies no top-20 cap. -/
theorem c4_counterexample :
    20 < ((retrieve_context_blocks ["f0"] c4_candidates [] false).retrieval_refs).length := by
  decide

/-- C4 (amended): the top-20 cap lives downstream in
`build_context_manifest`, whose `retrieved_context_refs` list never holds
more than 20 entries. -/
theorem c4_manifest_refs_capped (session_id task_id : String)
    (permissions : List (String × String))
    (permitted_files_info : List (String × FileInfo)) (viewport : Option ViewportInfo)
    (active_excerpt : Option String) (retrieval_refs : List RetrievalRef)
    (compact_summary : Option String) (task_state : Option TaskSnapshot) :
    (build_context_manifest session_id task_id permissions permitted_files_info viewport
        active_excerpt retrieval_refs compact_summary
        task_state).retrieved_context_refs.length ≤ 20 := by
  simp only [build_context_manifest, List.length_take]
  omega

/-! ## Claim C8 -/

/-- C8: the batch yields exactly one result per call, and a single call's
failure is isolated with the documented error codes: unknown tool ⇒
`TOOL_NOT_FOUND`, failed validation ⇒ `VALIDATION_ERROR`, permission-gate
rejection ⇒ `PERMISSION_DENIED`, raised execution exception ⇒
`EXECUTION_ERROR`. -/
theorem c8_tool_failures_isolated (registry : List ToolSpec) (files : List FileRec)
    (tool_calls : List BatchCall) (context : ToolContext) :
    (ToolExecutor_execute_batch registry files tool_calls context).length =
      tool_calls.length ∧
    (∀ (tool_name : Option String) (arguments : ToolArgs),
      registry.find? (fun t => Option.some t.tname == tool_name) = Option.none →
      ToolExecutor_execute registry files tool_name arguments context true =
        tool_failure ("Unknown tool: " ++ tool_name.getD "None") "TOOL_NOT_FOUND") ∧
    (∀ (tool_name : Option String) (arguments : ToolArgs) (tool : ToolSpec),
      registry.find? (fun t => Option.some t.tname == tool_name) = Option.some tool →
      (validate_arguments tool arguments).isSome = true →
      (ToolExecutor_execute registry files tool_name arguments context true).success = false ∧
      (ToolExecutor_execute registry files tool_name arguments context true).error_code =
        Option.some "VALIDATION_ERROR") ∧
    (∀ (tool_name : Option String) (arguments : ToolArgs) (tool : ToolSpec),
      registry.find? (fun t => Option.some t.tname == tool_name) = Option.some tool →
      validate_arguments tool arguments = Option.none →
      (check_permission tool arguments context files).isSome = true →
      (ToolExecutor_execute registry files tool_name arguments context true).success = false ∧
      (ToolExecutor_execute registry files tool_name arguments context true).error_code =
        Option.some "PERMISSION_DENIED") ∧
    (∀ (tool_name : Option String) (arguments : ToolArgs) (tool : ToolSpec) (msg : String),
      registry.find? (fun t => Option.some t.tname == tool_name) = Option.some tool →
      validate_arguments tool arguments = Option.none →
      check_permission tool arguments context files = Option.none →
      tool.run arguments = ToolRunOutcome.raised msg →
      (ToolExecutor_execute registry files tool_name arguments context true).success = false ∧
      (ToolExecutor_execute registry files tool_name arguments context true).error_code =
        Option.some "EXECUTION_ERROR") := by
  refine ⟨by simp [ToolExecutor_execute_batch], ?_, ?_, ?_, ?_⟩
  · intro tool_name arguments hfind
    simp [ToolExecutor_execute, hfind]
  · intro tool_name arguments tool hfind hval
    cases hv : validate_arguments tool arguments with
    | none => rw [hv] at hval; simp at hval
    | some e => constructor <;> simp [ToolExecutor_execute, hfind, hv, tool_failure]
  · intro tool_name arguments tool hfind hval hperm
    cases hp : check_permission tool arguments context files with
    | none => rw [hp] at hperm; simp at hperm
    | some e => constructor <;>
        simp [ToolExecutor_execute, hfind, hval, hp, tool_failure]
  · intro tool_name arguments tool msg hfind hval hperm hrun
    constructor <;> simp [ToolExecutor_execute, hfind, hval, hperm, hrun, tool_failure]

/-- Witness for C8: each failure mode at a concrete call. -/
theorem c8_tool_failures_isolated_witness :
    (ToolExecutor_execute_batch c8_registry [] [⟨Option.some "nope", []⟩] c8_context).length =
      ([⟨Option.some "nope", []⟩] : List BatchCall).length ∧
    ToolExecutor_execute c8_registry [] (Option.some "nope") [] c8_context true =
      tool_failure ("Unknown tool: " ++ (Option.some "nope").getD "None") "TOOL_NOT_FOUND" ∧
    (ToolExecutor_execute c8_registry [] (Option.some "echo") [] c8_context true).error_code =
      Option.some "VALIDATION_ERROR" ∧
    (ToolExecutor_execute c8_registry [] (Option.some "edit")
        [("file_id", ArgVal.s "doc")] c8_context true).error_code =
      Option.some "PERMISSION_DENIED" ∧
    (ToolExecutor_execute c8_registry [] (Option.some "boom") [] c8_context true).error_code =
      Option.some "EXECUTION_ERROR" := by
  obtain ⟨h1, h2, h3, h4, h5⟩ :=
    c8_tool_failures_isolated c8_registry [] [⟨Option.some "nope", []⟩] c8_context
  exact ⟨h1, h2 (Option.some "nope") [] rfl,
    (h3 (Option.some "echo") [] c8_tool_echo rfl rfl).2,
    (h4 (Option.some "edit") [("file_id", ArgVal.s "doc")] c8_tool_edit rfl rfl rfl).2,
    (h5 (Option.some "boom") [] c8_tool_boom "kaput" rfl rfl rfl rfl).2⟩

/-! ## Claim C9 -/

/-- C9: for a tool requiring `write`, a resolved level `read` always raises;
level `write` with a write-restricted tool on a file of a disallowed type
also raises; level `write` on an allowed type passes. -/
theorem c9_write_permission_gate (tool : ToolSpec) (arguments : ToolArgs)
    (context : ToolContext) (files : List FileRec) (file_id : String)
    (hreq : tool.required_permission = Option.some PermissionLevel.WRITE)
    (hfid : extract_file_id arguments = Option.some file_id) :
    (((alistGet context.permissions file_id).getD PermissionLevel.READ =
        PermissionLevel.READ) →
      (check_permission tool arguments context files).isSome = true) ∧
    (∀ f : FileRec,
      (alistGet context.permissions file_id).getD PermissionLevel.READ =
        PermissionLevel.WRITE →
      tool.writable_only = true →
      files.find? (fun g => g.id == file_id) = Option.some f →
      ¬ f.ftype ∈ WRITABLE_TYPES →
      (check_permission tool arguments context files).isSome = true) ∧
    (∀ f : FileRec,
      (alistGet context.permissions file_id).getD PermissionLevel.READ =
        PermissionLevel.WRITE →
      files.find? (fun g => g.id == file_id) = Option.some f →
      f.ftype ∈ WRITABLE_TYPES →
      check_permission tool arguments context files = Option.none) := by
  refine ⟨?_, ?_, ?_⟩
  · intro hlevel
    simp [check_permission, hfid, hreq, hlevel]
  · intro f hlevel hwo hfind hft
    simp [check_permission, hfid, hreq, hlevel, hwo, hfind, hft]
  · intro f hlevel hfind hft
    by_cases hwo : tool.writable_only <;>
      simp [check_permission, hfid, hreq, hlevel, hwo, hfind, hft]

/-- Witness for C9: the three permission scenarios at concrete inputs. -/
theorem c9_write_permission_gate_witness :
    (check_permission c9_tool c9_args ⟨"s", [("doc", PermissionLevel.READ)]⟩
        [⟨"doc", "d.md", "md"⟩]).isSome = true ∧
    (check_permission c9_tool c9_args ⟨"s", [("doc", PermissionLevel.WRITE)]⟩
        [⟨"doc", "d.pdf", "pdf"⟩]).isSome = true ∧
    check_permission c9_tool c9_args ⟨"s", [("doc", PermissionLevel.WRITE)]⟩
        [⟨"doc", "d.md", "md"⟩] = Option.none :=
  ⟨(c9_write_permission_gate c9_tool c9_args ⟨"s", [("doc", PermissionLevel.READ)]⟩
      [⟨"doc", "d.md", "md"⟩] "doc" rfl rfl).1 (by decide),
   (c9_write_permission_gate c9_tool c9_args ⟨"s", [("doc", PermissionLevel.WRITE)]⟩
      [⟨"doc", "d.pdf", "pdf"⟩] "doc" rfl rfl).2.1 ⟨"doc", "d.pdf", "pdf"⟩
      (by decide) rfl rfl (by decide),
   (c9_write_permission_gate c9_tool c9_args ⟨"s", [("doc", PermissionLevel.WRITE)]⟩
      [⟨"doc", "d.md", "md"⟩] "doc" rfl rfl).2.2 ⟨"doc", "d.md", "md"⟩
      (by decide) rfl (by decide)⟩

/-! ## Claim C10 -/

/-- C10: a file id with no entry in the permission map is kept by
`filter_visible_files` and `filter_readable_files` (absence defaults to
read) but dropped by `filter_writable_files` (absence defaults to none for
writes). -/
theorem c10_absent_defaults (context : ToolContext) (file_ids : List String)
    (file_id : String)
    (habsent : alistGet context.permissions file_id = Option.none)
    (hmem : file_id ∈ file_ids) :
    file_id ∈ filter_visible_files file_ids context ∧
    file_id ∈ filter_readable_files file_ids context ∧
    ¬ file_id ∈ filter_writable_files file_ids context := by
  refine ⟨List.mem_filter.mpr ⟨hmem, ?_⟩, List.mem_filter.mpr ⟨hmem, ?_⟩, fun hc => ?_⟩
  · simp [habsent]
  · simp [habsent]
  · have hpred := (List.mem_filter.mp hc).2
    simp [habsent] at hpred

/-- Witness for C10 at a concrete permission map lacking file `b`. -/
theorem c10_absent_defaults_witness :
    "b" ∈ filter_visible_files ["b"] ⟨"s", [("a", PermissionLevel.WRITE)]⟩ ∧
    "b" ∈ filter_readable_files ["b"] ⟨"s", [("a", PermissionLevel.WRITE)]⟩ ∧
    ¬ "b" ∈ filter_writable_files ["b"] ⟨"s", [("a", PermissionLevel.WRITE)]⟩ :=
  c10_absent_defaults ⟨"s", [("a", PermissionLevel.WRITE)]⟩ ["b"] "b" rfl
    (List.mem_singleton_self "b")

/-! ## Turn-orchestrator lemmas -/

/-- Session get-or-create leaves the cancellation set untouched. -/
theorem get_or_create_session_cancelled (st : AppState) (request : ChatRequest) :
    (get_or_create_session st request).1.cancelled_tasks = st.cancelled_tasks := by
  unfold get_or_create_session
  split
  · rfl
  · split <;> rfl

/-- Session get-or-create leaves the tool-invocation counter untouched. -/
theorem get_or_create_session_tool_invocations (st : AppState) (request : ChatRequest) :
    (get_or_create_session st request).1.tool_invocations = st.tool_invocations := by
  unfold get_or_create_session
  split
  · rfl
  · split <;> rfl

/-- Emitting an event leaves the persisted task states untouched. -/
theorem emit_task_event_db_task_states (st : AppState)
    (session_id task_id event_type stage message : String) (progress : Option Int)
    (status : String) (payload : List (String × String)) (persist : Bool) :
    (emit_task_event st session_id task_id event_type stage message progress status payload
      persist).db.task_states = st.db.task_states := by
  simp only [emit_task_event, fresh_uuid]
  split <;> rfl

/-- Emitting an event leaves the tool-invocation counter untouched. -/
theorem emit_task_event_tool_invocations (st : AppState)
    (session_id task_id event_type stage message : String) (progress : Option Int)
    (status : String) (payload : List (String × String)) (persist : Bool) :
    (emit_task_event st session_id task_id event_type stage message progress status payload
      persist).tool_invocations = st.tool_invocations := by
  simp only [emit_task_event, fresh_uuid]
  split <;> rfl

/-- The finalizer touches only the registries and the cancellation set. -/
theorem finalize_registry_db (st : AppState) (session_id task_id : String) :
    (finalize_registry st session_id task_id).db = st.db := rfl

/-- The finalizer leaves the tool-invocation counter untouched. -/
theorem finalize_registry_tool_invocations (st : AppState) (session_id task_id : String) :
    (finalize_registry st session_id task_id).tool_invocations = st.tool_invocations := rfl

/-- A task id lying in the cancellation set makes the body throw the
cancellation signal at the first checkpoint, right after session setup. -/
theorem turn_body_cancelled (env : TurnEnv) (request : ChatRequest) (task_id : String)
    (user_message : ChatMessageRec) (st : AppState)
    (hc : st.cancelled_tasks.contains task_id = true) :
    turn_body env request task_id user_message st =
      Except.error ((get_or_create_session st request).1,
        TurnErr.cancelled ⟨false, Option.none, Option.none, Option.none, Option.none⟩) := by
  have hc1 : (get_or_create_session st request).1.cancelled_tasks.contains task_id = true := by
    rw [get_or_create_session_cancelled]
    exact hc
  simp only [turn_body]
  rw [show assert_not_cancelled (get_or_create_session st request).1 task_id
      ⟨false, Option.none, Option.none, Option.none, Option.none⟩ =
      Except.error ((get_or_create_session st request).1,
        TurnErr.cancelled ⟨false, Option.none, Option.none, Option.none, Option.none⟩) from by
    unfold assert_not_cancelled
    rw [hc1]
    simp]
  rfl

/-- Field-level description of the cancelled-turn handler: cancelled
envelope with empty tool results, a persisted `blocked`/`cancelled_by_user`
task state, and an unchanged tool-invocation counter. -/
theorem cancelled_turn_spec (request : ChatRequest) (task_id : String)
    (user_message : ChatMessageRec) (compact_meta : CompactMeta) (st : AppState) :
    (cancelled_turn request task_id user_message compact_meta st).2.cancelled = true ∧
    (cancelled_turn request task_id user_message compact_meta st).2.tool_results = [] ∧
    (cancelled_turn request task_id user_message compact_meta st).2.tool_calls = [] ∧
    (cancelled_turn request task_id user_message compact_meta st).2.content =
      "Task cancelled by user." ∧
    (cancelled_turn request task_id user_message compact_meta st).2.task_state.state =
      "blocked" ∧
    (∃ row ∈ (cancelled_turn request task_id user_message compact_meta st).1.db.task_states,
      row.session_id = request.session_id ∧ row.state = "blocked" ∧
      row.blocked_reason = Option.some "cancelled_by_user") ∧
    (cancelled_turn request task_id user_message compact_meta st).1.tool_invocations =
      st.tool_invocations := by
  refine ⟨rfl, rfl, rfl, rfl, ?_, ?_, ?_⟩
  · simp only [cancelled_turn, fresh_uuid]
    rw [upsert_snapshot_spec]
  · simp only [cancelled_turn, fresh_uuid]
    rw [emit_task_event_db_task_states]
    obtain ⟨row, hm, hsid, -, hstate, -, -, hbr⟩ := upsert_row_spec _ _ _ _ _ _ _ _ _ _ _ _ _
    exact ⟨row, hm, hsid, hstate, hbr⟩
  · simp only [cancelled_turn, fresh_uuid]
    rw [emit_task_event_tool_invocations]

/-- A turn that starts with its task id in the cancellation set finalizes as
the cancelled envelope without running any tool. -/
theorem run_turn_after_cancel (env : TurnEnv) (request : ChatRequest) (task_id : String)
    (st : AppState) (hc : st.cancelled_tasks.contains task_id = true) :
    ∃ data : ChatData,
      (run_turn env request task_id st).2 = ChatOutcome.completed data ∧
      data.cancelled = true ∧ data.tool_results = [] ∧ data.tool_calls = [] ∧
      data.content = "Task cancelled by user." ∧ data.task_state.state = "blocked" ∧
      (∃ row ∈ (run_turn env request task_id st).1.db.task_states,
        row.session_id = request.session_id ∧ row.state = "blocked" ∧
        row.blocked_reason = Option.some "cancelled_by_user") ∧
      (run_turn env request task_id st).1.tool_invocations = st.tool_invocations := by
  simp only [run_turn, fresh_uuid]
  rw [turn_body_cancelled]
  · obtain ⟨h1, h2, h3, h4, h5, h6, h7⟩ := cancelled_turn_spec request task_id
      ⟨"uuid-" ++ toString st.clock, request.session_id, "user", request.message,
        st.clock + 1⟩
      ⟨false, Option.none, Option.none, Option.none, Option.none⟩
      (get_or_create_session
        { st with
            running_task_by_session :=
              alistSet st.running_task_by_session request.session_id task_id
            task_to_session := alistSet st.task_to_session task_id request.session_id
            clock := st.clock + 1 } request).1
    refine ⟨_, rfl, h1, h2, h3, h4, h5, ?_, ?_⟩
    · rw [finalize_registry_db]
      exact h6
    · rw [finalize_registry_tool_invocations]
      rw [h7, get_or_create_session_tool_invocations]
  · exact hc

/-! ## Claim C6 -/

/-- C6: when the task id is already in the cancellation set as the turn
starts (and the registry check passes), the turn finalizes rather than
errors: the outcome is the cancelled envelope with empty tool results and
tool calls, a `blocked` task state with reason `cancelled_by_user` is
persisted, and no tool is executed. -/
theorem c6_cancelled_before_first_checkpoint (env : TurnEnv) (request : ChatRequest)
    (st : AppState)
    (hcancel : st.cancelled_tasks.contains (request_task_id env request) = true)
    (hpass : ∀ existing, alistGet st.running_task_by_session request.session_id =
      Option.some existing → existing = "" ∨ existing = request_task_id env request) :
    ∃ data : ChatData,
      (chat_completion env request st).2 = ChatOutcome.completed data ∧
      data.cancelled = true ∧ data.tool_results = [] ∧ data.tool_calls = [] ∧
      data.content = "Task cancelled by user." ∧ data.task_state.state = "blocked" ∧
      (∃ row ∈ (chat_completion env request st).1.db.task_states,
        row.session_id = request.session_id ∧ row.state = "blocked" ∧
        row.blocked_reason = Option.some "cancelled_by_user") ∧
      (chat_completion env request st).1.tool_invocations = st.tool_invocations := by
  cases halist : alistGet st.running_task_by_session request.session_id with
  | none =>
    have h := run_turn_after_cancel env request (request_task_id env request) st hcancel
    simpa only [chat_completion, halist] using h
  | some existing =>
    have hne : ¬ (existing ≠ "" ∧ existing ≠ request_task_id env request) := by
      rcases hpass existing halist with h | h <;> simp [h]
    have h := run_turn_after_cancel env request (request_task_id env request) st hcancel
    simpa only [chat_completion, halist, if_neg hne] using h

/-- Witness for C6: a concrete turn arriving with its task id already
cancelled. -/
theorem c6_cancelled_before_first_checkpoint_witness :
    ∃ data : ChatData,
      (chat_completion sampleEnv c6_request c6_cancelled_state).2 =
        ChatOutcome.completed data ∧
      data.cancelled = true ∧ data.tool_results = [] ∧ data.tool_calls = [] ∧
      data.content = "Task cancelled by user." ∧ data.task_state.state = "blocked" ∧
      (∃ row ∈ (chat_completion sampleEnv c6_request c6_cancelled_state).1.db.task_states,
        row.session_id = c6_request.session_id ∧ row.state = "blocked" ∧
        row.blocked_reason = Option.some "cancelled_by_user") ∧
      (chat_completion sampleEnv c6_request c6_cancelled_state).1.tool_invocations =
        c6_cancelled_state.tool_invocations :=
  c6_cancelled_before_first_checkpoint sampleEnv c6_request c6_cancelled_state
    (by decide) (fun existing h => Option.noConfusion h)

/-! ## Claim C5 -/

/-- C5 (amended): a turn invocation arriving while the registry slot holds a
different (truthy) task id is rejected with the conflict outcome and the
whole state — registries, store, events — is returned untouched. -/
theorem c5_conflict_rejected (env : TurnEnv) (request : ChatRequest) (st : AppState)
    (existing : String)
    (hrun : alistGet st.running_task_by_session request.session_id = Option.some existing)
    (hne : existing ≠ "") (hdiff : existing ≠ request_task_id env request) :
    chat_completion env request st =
      (st, ChatOutcome.conflict ("Session already has a running task (" ++ existing ++
        "). Cancel it before starting a new one.")) := by
  simp only [chat_completion, hrun]
  rw [if_pos (show existing ≠ "" ∧ existing ≠ request_task_id env request from ⟨hne, hdiff⟩)]

/-- Witness for C5: a concrete second invocation with a distinct task id. -/
theorem c5_conflict_rejected_witness :
    chat_completion sampleEnv c5_new_request c5_busy_state =
      (c5_busy_state, ChatOutcome.conflict ("Session already has a running task (" ++ "T" ++
        "). Cancel it before starting a new one.")) :=
  c5_conflict_rejected sampleEnv c5_new_request c5_busy_state "T" rfl (by decide) (by decide)

/-- C5 is false as stated in its universal part: a second invocation that
supplies the same task id as the one already running for the session is not
rejected — it proceeds past the registry check. -/
theorem c5_counterexample :
    (chat_completion sampleEnv c5_same_request c5_busy_state).2.isConflict = false := by
  decide

end Cognition
